import Mathlib

/-!
# Numpy dialect value types: interning, textual syntax

Shallow embedding of `lib/Dialect/Numpy/IR/NumpyDialect.cpp`.

* `mlir::Type` is a nullable handle to storage owned by the `MLIRContext`; two
  handles are equal when they point to the same storage.  `Ty` is that handle.
* `NdArrayTypeStorage` and `NdArrayType` are translated from the source.
* The services of the host framework that the source calls (the storage
  uniquer behind `Base::get`, the token cursor `DialectAsmParser`, the generic
  type parser and printer) are not part of the file; they are modelled here, and
  the generic type parser and printer are parameters (`Host`).
* The inference engine that `mapToCPAType` calls is a parameter (`CPA.Engine`).
-/

namespace Numpy

/-! ## Type handles and storage -/

/-- Handle `mlir::Type`.  Types without payload are singletons of the context and
are identified by their kind; an array type points to its storage in the
context. -/
inductive Ty where
  /-- the null handle `Type()` -/
  | null
  /-- the singleton `Basicpy::UnknownType::get(context)` -/
  | unknown
  /-- the singleton `AnyDtypeType::get(context)` -/
  | anyDtype
  /-- an `NdArrayType`; `impl` is the address of its `NdArrayTypeStorage` -/
  | ndArray (impl : Nat)
  /-- any other type of the host framework (`i32`, `f32`, ...) -/
  | other (id : Nat)
  deriving DecidableEq

/-- Storage `detail::NdArrayTypeStorage`. -/
structure NdArrayTypeStorage where
  optionalDtype : Ty
  deriving DecidableEq

/-- Key `NdArrayTypeStorage::KeyTy`. -/
abbrev KeyTy := Ty

/-- Comparison `NdArrayTypeStorage::operator==(const KeyTy &other)`. -/
def NdArrayTypeStorage.eqKey (s : NdArrayTypeStorage) (other : KeyTy) : Bool :=
  s.optionalDtype == other

/-- Hash `NdArrayTypeStorage::hashKey`; `hash_combine` is `llvm::hash_combine`,
some function of the handle. -/
def NdArrayTypeStorage.hashKey (hash_combine : Ty → Nat) (key : KeyTy) : Nat :=
  hash_combine key

/-- Constructor `NdArrayTypeStorage::construct`: a new storage holding the key
(the allocator decides where it lives, see `StorageUniquer.get`). -/
def NdArrayTypeStorage.construct (key : KeyTy) : NdArrayTypeStorage :=
  { optionalDtype := key }

/-- Context `MLIRContext`, reduced to what this dialect stores in it: the
uniquer's table of array storages, each kept with the hash it was inserted
under, in allocation order.  The address of a storage is its position. -/
structure MLIRContext where
  ndArrayStorages : List (Nat × NdArrayTypeStorage)
  deriving DecidableEq

/-- Modelled from the spec: the search of the interning service's table, the
position of the first storage inserted under `hashValue` for which `isEqual`
holds. -/
def StorageUniquer.lookup (hashValue : Nat) (isEqual : NdArrayTypeStorage → Bool) :
    List (Nat × NdArrayTypeStorage) → Option Nat
  | [] => none
  | e :: es =>
    if e.1 = hashValue ∧ isEqual e.2 = true then some 0
    else (StorageUniquer.lookup hashValue isEqual es).map (· + 1)

/-- Modelled from the spec: the type-interning service behind
`Base::get(context, NumpyTypes::NdArray, key)` ("given a key, return the unique
instance for that key within the current context, constructing and registering
it on first use").  It hashes the key with `hashKey`, searches the table with the
storage's `operator==`, and calls `construct` when nothing is found. -/
def StorageUniquer.get (hash_combine : Ty → Nat) (ctx : MLIRContext) (key : KeyTy) :
    Nat × MLIRContext :=
  let hashValue := NdArrayTypeStorage.hashKey hash_combine key
  match StorageUniquer.lookup hashValue (fun s => s.eqKey key) ctx.ndArrayStorages with
  | some impl => (impl, ctx)
  | none =>
    (ctx.ndArrayStorages.length,
      { ndArrayStorages :=
          ctx.ndArrayStorages ++ [(hashValue, NdArrayTypeStorage.construct key)] })

/-- Factory `NdArrayType::get(Type dtype)`.  `none` is the failed assertion
`dtype && "dtype cannot be null"`. -/
def NdArrayType.get (hash_combine : Ty → Nat) (ctx : MLIRContext) (dtype : Ty) :
    Option (Ty × MLIRContext) :=
  if dtype = Ty.null then none
  else
    let r := StorageUniquer.get hash_combine ctx dtype
    some (Ty.ndArray r.1, r.2)

/-- Accessor `getImpl()` of an array type whose storage is at address `impl`. -/
def NdArrayType.getImpl (ctx : MLIRContext) (impl : Nat) : Option NdArrayTypeStorage :=
  (ctx.ndArrayStorages[impl]?).map (·.2)

/-- Accessor `NdArrayType::getDtype()`.  An address that is not a storage of the
context does not occur in the program; the model reads the null handle there. -/
def NdArrayType.getDtype (ctx : MLIRContext) (impl : Nat) : Ty :=
  match NdArrayType.getImpl ctx impl with
  | some s => s.optionalDtype
  | none => Ty.null

/-- Predicate `NdArrayType::hasKnownDtype()`. -/
def NdArrayType.hasKnownDtype (ctx : MLIRContext) (impl : Nat) : Bool :=
  NdArrayType.getDtype ctx impl != Ty.unknown

/-! ## Token cursor -/

/-- Modelled from the spec: the tokens of the host's token cursor, as far as the
dialect's parser tells them apart. -/
inductive Token where
  | eof
  /-- a bare identifier or a builtin keyword (`parseKeyword` accepts both) -/
  | bare_identifier (spelling : String)
  /-- an integer type token `i32`, `si8`, `ui16` -/
  | inttype (spelling : String)
  | less
  | greater
  | question
  /-- any other character -/
  | other (c : Char)
  deriving DecidableEq

/-- Modelled from the spec: the characters the lexer skips between tokens. -/
def Lexer.isWhitespace (c : Char) : Bool :=
  c == ' ' || c == '\t' || c == '\n' || c == '\r'

/-- Modelled from the spec: first character of an identifier, `[a-zA-Z_]`. -/
def Lexer.isIdentStart (c : Char) : Bool :=
  c.isAlpha || c == '_'

/-- Modelled from the spec: further characters of an identifier,
`[0-9a-zA-Z_$.]`. -/
def Lexer.isIdentCont (c : Char) : Bool :=
  c.isAlpha || c.isDigit || c == '_' || c == '$' || c == '.'

/-- Modelled from the spec: all characters are decimal digits. -/
def Lexer.isAllDigit (cs : List Char) : Bool :=
  cs.all Char.isDigit

/-- Modelled from the spec: classification of an identifier; `i123`, `si456` and
`ui789` are integer type tokens, everything else is a bare identifier or
keyword. -/
def Lexer.classify (sp : List Char) : Token :=
  match sp with
  | 'i' :: d :: ds =>
    if Lexer.isAllDigit (d :: ds) then Token.inttype (String.mk sp)
    else Token.bare_identifier (String.mk sp)
  | c :: 'i' :: d :: ds =>
    if (c = 's' ∨ c = 'u') ∧ Lexer.isAllDigit (d :: ds) = true then Token.inttype (String.mk sp)
    else Token.bare_identifier (String.mk sp)
  | _ => Token.bare_identifier (String.mk sp)

/-- Modelled from the spec: the lexer under the token cursor.  It skips white
space and returns the next token together with the text after it; characters
that start no token of this dialect's grammar are tokens of their own. -/
def Lexer.lexToken : List Char → Token × List Char
  | [] => (Token.eof, [])
  | c :: cs =>
    if Lexer.isWhitespace c then Lexer.lexToken cs
    else if c = '<' then (Token.less, cs)
    else if c = '>' then (Token.greater, cs)
    else if c = '?' then (Token.question, cs)
    else if Lexer.isIdentStart c then
      (Lexer.classify (c :: cs.takeWhile Lexer.isIdentCont), cs.dropWhile Lexer.isIdentCont)
    else (Token.other c, cs)

/-- Result `ParseResult` / `LogicalResult`. -/
inductive ParseResult where
  | success
  | failure
  deriving DecidableEq

/-- A diagnostic: source location (offset into the text) and message. -/
structure Diagnostic where
  loc : Nat
  message : String
  deriving DecidableEq

/-- Modelled from the spec: the token cursor `DialectAsmParser`, made of the text
from the current token on, the offset of that text, the location `getNameLoc()`,
the context `getContext()` and the diagnostics emitted so far. -/
structure DialectAsmParser where
  input : List Char
  offset : Nat
  nameLoc : Nat
  context : MLIRContext
  diagnostics : List Diagnostic
  deriving DecidableEq

namespace DialectAsmParser

/-- Modelled from the spec: the current token. -/
def getToken (p : DialectAsmParser) : Token :=
  (Lexer.lexToken p.input).1

/-- Modelled from the spec: the location of the current token. -/
def getCurrentLocation (p : DialectAsmParser) : Nat :=
  p.offset + (p.input.length - (p.input.dropWhile Lexer.isWhitespace).length)

/-- Modelled from the spec: the cursor moved past the current token. -/
def consumeToken (p : DialectAsmParser) : DialectAsmParser :=
  { p with
    input := (Lexer.lexToken p.input).2
    offset := p.offset + (p.input.length - (Lexer.lexToken p.input).2.length) }

/-- Modelled from the spec: method `getNameLoc()`, the location the parser was
created at. -/
def getNameLoc (p : DialectAsmParser) : Nat :=
  p.nameLoc

/-- Modelled from the spec: method `emitError(loc, message)`, which records a
positioned diagnostic. -/
def emitError (p : DialectAsmParser) (loc : Nat) (message : String) : DialectAsmParser :=
  { p with diagnostics := p.diagnostics ++ [{ loc := loc, message := message }] }

/-- Modelled from the spec: a parser positioned at the start of `text`, as the
host creates it before it calls the dialect; the name location is the location
of the first token. -/
def create (text : String) (ctx : MLIRContext) : DialectAsmParser :=
  { input := text.data
    offset := 0
    nameLoc := text.data.length - (text.data.dropWhile Lexer.isWhitespace).length
    context := ctx
    diagnostics := [] }

/-- Modelled from the spec: method `parseKeyword(StringRef *keyword)`.  It reads
a bare identifier or keyword and moves past it; on any other token it emits a
diagnostic and fails. -/
def parseKeyword (p : DialectAsmParser) : ParseResult × String × DialectAsmParser :=
  match p.getToken with
  | Token.bare_identifier spelling => (ParseResult.success, spelling, p.consumeToken)
  | _ => (ParseResult.failure, "", p.emitError p.getCurrentLocation "expected valid keyword")

/-- Modelled from the spec: method `parseLess()`, which expects the symbol `<`. -/
def parseLess (p : DialectAsmParser) : ParseResult × DialectAsmParser :=
  if p.getToken = Token.less then (ParseResult.success, p.consumeToken)
  else (ParseResult.failure, p.emitError p.getCurrentLocation "expected '<'")

/-- Modelled from the spec: method `parseGreater()`, which expects the symbol
`>`. -/
def parseGreater (p : DialectAsmParser) : ParseResult × DialectAsmParser :=
  if p.getToken = Token.greater then (ParseResult.success, p.consumeToken)
  else (ParseResult.failure, p.emitError p.getCurrentLocation "expected '>'")

/-- Modelled from the spec: method `parseOptionalQuestion()`.  It moves past `?`
when that is the current token and fails, without a diagnostic and without
moving, otherwise. -/
def parseOptionalQuestion (p : DialectAsmParser) : ParseResult × DialectAsmParser :=
  if p.getToken = Token.question then (ParseResult.success, p.consumeToken)
  else (ParseResult.failure, p)

end DialectAsmParser

/-- The host framework around the dialect: `llvm::hash_combine`, the generic
type parser behind `DialectAsmParser::parseType` (it returns the null handle
when it fails) and the generic type printer `DialectAsmPrinter::printType`. -/
structure Host where
  hash_combine : Ty → Nat
  parseType : DialectAsmParser → Ty × DialectAsmParser
  printType : MLIRContext → Ty → String

/-- Modelled from the spec: method `DialectAsmParser::parseType(Type &result)`.
It stores the result of the host's type parser and fails exactly when that is
null. -/
def DialectAsmParser.parseType (h : Host) (p : DialectAsmParser) :
    ParseResult × Ty × DialectAsmParser :=
  let r := h.parseType p
  (if r.1 = Ty.null then ParseResult.failure else ParseResult.success, r.1, r.2)

/-! ## Syntax bridge -/

/-- Parser `NumpyDialect::parseType`.  The result is the returned handle and the
parser afterwards; `none` is an assertion failure inside `NdArrayType::get`. -/
def NumpyDialect.parseType (h : Host) (parser : DialectAsmParser) :
    Option (Ty × DialectAsmParser) :=
  match parser.parseKeyword with
  | (ParseResult.failure, _, p1) => some (Ty.null, p1)
  | (ParseResult.success, keyword, p1) =>
    if keyword = "any_dtype" then some (Ty.anyDtype, p1)
    else if keyword = "ndarray" then
      let dtype := Ty.unknown
      match p1.parseLess with
      | (ParseResult.failure, p2) => some (Ty.null, p2)
      | (ParseResult.success, p2) =>
        match p2.parseOptionalQuestion with
        | (ParseResult.failure, p3) =>
          -- Specified dtype.
          match p3.parseType h with
          | (ParseResult.failure, _, p4) => some (Ty.null, p4)
          | (ParseResult.success, dtype, p4) =>
            match p4.parseGreater with
            | (ParseResult.failure, p5) => some (Ty.null, p5)
            | (ParseResult.success, p5) =>
              (NdArrayType.get h.hash_combine p5.context dtype).map
                (fun r => (r.1, { p5 with context := r.2 }))
        | (ParseResult.success, p3) =>
          match p3.parseGreater with
          | (ParseResult.failure, p4) => some (Ty.null, p4)
          | (ParseResult.success, p4) =>
            (NdArrayType.get h.hash_combine p4.context dtype).map
              (fun r => (r.1, { p4 with context := r.2 }))
    else some (Ty.null, p1.emitError p1.getNameLoc ("unknown numpy type: " ++ keyword))

/-- Printer `NumpyDialect::printType`: the text written to the stream.  `none` is
the `llvm_unreachable` of the default case. -/
def NumpyDialect.printType (h : Host) (ctx : MLIRContext) (type : Ty) : Option String :=
  match type with
  | Ty.anyDtype => some "any_dtype"
  | Ty.ndArray impl =>
    let unknownType := Ty.unknown
    let dtype := NdArrayType.getDtype ctx impl
    some ("ndarray<" ++ (if dtype ≠ unknownType then h.printType ctx dtype else "?") ++ ">")
  | _ => none

/-! ## A small host -/

/-- A host that knows the types `i32` (`Ty.other 0`) and `f32` (`Ty.other 1`);
on anything else its parser emits a diagnostic and returns null. -/
def Host.basic : Host where
  hash_combine := fun t =>
    match t with
    | Ty.null => 0
    | Ty.unknown => 1
    | Ty.anyDtype => 2
    | Ty.ndArray i => 2 * i + 3
    | Ty.other i => 2 * i + 4
  parseType := fun p =>
    match p.getToken with
    | Token.inttype "i32" => (Ty.other 0, p.consumeToken)
    | Token.bare_identifier "f32" => (Ty.other 1, p.consumeToken)
    | _ => (Ty.null, p.emitError p.getCurrentLocation "expected non-function type")
  printType := fun _ t =>
    match t with
    | Ty.other 0 => "i32"
    | Ty.other 1 => "f32"
    | _ => "<<unknown type>>"

/-- A host that also dispatches to this dialect, `n` levels deep: a type written
`!numpy.` followed by the dialect's own text is handed to `NumpyDialect.parseType`
with a parser named at that text, and the dialect's types are printed with that
prefix.  Everything else is left to `Host.basic`. -/
def Host.nested : Nat → Host
  | 0 => Host.basic
  | n + 1 =>
    { hash_combine := Host.basic.hash_combine
      parseType := fun p =>
        match p.input.dropWhile Lexer.isWhitespace with
        | '!' :: 'n' :: 'u' :: 'm' :: 'p' :: 'y' :: '.' :: rest =>
          match NumpyDialect.parseType (Host.nested n)
              { p with
                input := rest
                offset := p.offset + (p.input.length - rest.length)
                nameLoc := p.offset + (p.input.length - rest.length) } with
          | some (t, p2) => (t, { p2 with nameLoc := p.nameLoc })
          | none => (Ty.null, p)
        | _ => Host.basic.parseType p
      printType := fun ctx t =>
        match NumpyDialect.printType (Host.nested n) ctx t with
        | some text => "!numpy." ++ text
        | none => Host.basic.printType ctx t }

/-! ## Context invariants -/

/-- Invariant of the uniquer's table: every storage is kept under the hash of its
key, no key is null, and no key occurs twice. -/
def MLIRContext.WellFormed (hash_combine : Ty → Nat) (ctx : MLIRContext) : Prop :=
  (∀ e ∈ ctx.ndArrayStorages,
      e.1 = NdArrayTypeStorage.hashKey hash_combine e.2.optionalDtype ∧
      e.2.optionalDtype ≠ Ty.null) ∧
    (ctx.ndArrayStorages.map (fun e => e.2.optionalDtype)).Nodup

/-- The context `ctx2` holds every storage of `ctx1` at the same address. -/
def MLIRContext.Extends (ctx1 ctx2 : MLIRContext) : Prop :=
  ctx1.ndArrayStorages <+: ctx2.ndArrayStorages

/-- The array type at address `impl` is a type of the context. -/
def NdArrayType.LiveIn (ctx : MLIRContext) (impl : Nat) : Prop :=
  impl < ctx.ndArrayStorages.length

instance MLIRContext.decidableWellFormed (hash_combine : Ty → Nat) (ctx : MLIRContext) :
    Decidable (ctx.WellFormed hash_combine) := by
  unfold MLIRContext.WellFormed
  exact inferInstance

instance NdArrayType.decidableLiveIn (ctx : MLIRContext) (impl : Nat) :
    Decidable (NdArrayType.LiveIn ctx impl) := by
  unfold NdArrayType.LiveIn
  exact inferInstance

/-- The host's type parser accepts no type that starts with the token `?`. -/
def Host.RejectsQuestion (h : Host) : Prop :=
  ∀ p : DialectAsmParser, p.getToken = Token.question → (h.parseType p).1 = Ty.null

/-- The host's parser reads the printed form of `T` back as `T`: started in the
context `ctx` at that text followed by `>`, it returns `T` and stops at the `>`;
it only adds to the context and keeps it well formed. -/
def Host.ParsesBack (h : Host) (ctx : MLIRContext) (T : Ty) : Prop :=
  ∀ p : DialectAsmParser, p.context = ctx → p.input = (h.printType ctx T).data ++ ['>'] →
    (h.parseType p).1 = T ∧ (h.parseType p).2.getToken = Token.greater ∧
      ctx.Extends (h.parseType p).2.context ∧
      (h.parseType p).2.context.WellFormed h.hash_combine

/-- The types the round trip is about: `any_dtype`, and the array types of the
context whose element is the unknown marker or a type the host reads back. -/
def NumpyDialect.Constructible (h : Host) (ctx : MLIRContext) : Ty → Prop
  | Ty.anyDtype => True
  | Ty.ndArray impl =>
    NdArrayType.LiveIn ctx impl ∧
      (NdArrayType.getDtype ctx impl = Ty.unknown ∨
        h.ParsesBack ctx (NdArrayType.getDtype ctx impl))
  | _ => False

/-- The text `u` is the canonical text of the element type `T` in `ctx`: the
host's parser, started at `u` followed by `>`, returns `T` and stops at the `>`,
and the host's printer writes `T` as `u` from then on. -/
def Host.CanonicalText (h : Host) (ctx : MLIRContext) (u : String) (T : Ty) : Prop :=
  ∀ p : DialectAsmParser, p.context = ctx → p.input = u.data ++ ['>'] →
    (h.parseType p).1 = T ∧ (h.parseType p).2.getToken = Token.greater ∧
      ∀ ctx2 : MLIRContext, (h.parseType p).2.context.Extends ctx2 → h.printType ctx2 T = u

/-! ## Inference bridge -/

/-- Pointer `Typing::CPA::ObjectValueType *`, as the reconstruction closure
receives it. -/
abbrev CPA.ObjectValueType := Nat

/-- Pointer `MLIRContext *`, as the reconstruction closure receives it. -/
abbrev MLIRContextPtr := Nat

/-- Source location `mlir::Location`. -/
abbrev Location := Nat

/-- Type of the reconstruction closure handed to the inference engine.  Next to
the four arguments of the C++ closure it takes the state of the context that owns
the field types; `none` is a failed assertion. -/
abbrev CPA.IrCtor :=
  CPA.ObjectValueType → List Ty → MLIRContextPtr → Option Location → MLIRContext →
    Option (Ty × MLIRContext)

/-- The inference engine `Typing::CPA::Context` as `mapToCPAType` uses it: nodes
`TypeNode`, identifiers `Identifier`, the state `State` of the engine's context,
and the three operations `getIRValueType`, `getIdentifier` and `newArrayType`, each
of which may change that state. -/
structure CPA.Engine (TypeNode Identifier State : Type) where
  getIRValueType : State → MLIRContext → Ty → TypeNode × State
  getIdentifier : State → String → Identifier × State
  newArrayType : State → CPA.IrCtor → Identifier → Option TypeNode → TypeNode × State

/-- The lambda `irCtor` of `NdArrayType::mapToCPAType`.  It captures nothing and
ignores `ovt`, `mlirContext` and the location; `ctx` is the state of the context
of the field type, which `NdArrayType::get` reaches through
`dtype.getContext()`. -/
def NdArrayType.irCtor (hash_combine : Ty → Nat) : CPA.IrCtor :=
  fun _ovt fieldTypes _mlirContext _loc ctx =>
    if fieldTypes.length = 1 then
      -- fieldTypes.front()
      match fieldTypes with
      | front :: _ => NdArrayType.get hash_combine ctx front
      | [] => none
    else none

/-- Method `NdArrayType::mapToCPAType(Typing::CPA::Context &context)` of the array
type at address `impl`; `context` is the engine's state before the call. -/
def NdArrayType.mapToCPAType {TypeNode Identifier State : Type}
    (cpa : CPA.Engine TypeNode Identifier State) (hash_combine : Ty → Nat)
    (ctx : MLIRContext) (impl : Nat) (context : State) : TypeNode × State :=
  let dtype : Option TypeNode × State :=
    if NdArrayType.hasKnownDtype ctx impl = true then
      let r := cpa.getIRValueType context ctx (NdArrayType.getDtype ctx impl)
      (some r.1, r.2)
    else (none, context)
  let irCtor := NdArrayType.irCtor hash_combine
  let label := cpa.getIdentifier dtype.2 "!NdArray"
  cpa.newArrayType label.2 irCtor label.1 dtype.1

/-- A call received by the logging engine. -/
inductive CPA.Call where
  | getIRValueType (type : Ty)
  | getIdentifier (name : String)
  | newArrayType (label : String) (element : Option Nat)
  deriving DecidableEq

/-- An engine that only records the calls it receives, in order; a node is the
number of calls made before it was created, an identifier is its string. -/
def CPA.Engine.logging : CPA.Engine Nat String (List CPA.Call) where
  getIRValueType := fun log _ type => (log.length, log ++ [CPA.Call.getIRValueType type])
  getIdentifier := fun log name => (name, log ++ [CPA.Call.getIdentifier name])
  newArrayType := fun log _ label element =>
    (log.length, log ++ [CPA.Call.newArrayType label element])

/-- An engine whose array node is the reconstruction closure it was given. -/
def CPA.Engine.capture : CPA.Engine CPA.IrCtor Unit Unit where
  getIRValueType := fun _ _ _ => (fun _ _ _ _ _ => none, ())
  getIdentifier := fun _ _ => ((), ())
  newArrayType := fun _ irCtor _ _ => (irCtor, ())

/-! ## More about hosts -/

/-- A host that, next to `Host.basic`, reads `!basicpy.UnknownType` as the unknown
marker type and prints that type so. -/
def Host.withUnknown : Host where
  hash_combine := Host.basic.hash_combine
  parseType := fun p =>
    let text := p.input.dropWhile Lexer.isWhitespace
    if "!basicpy.UnknownType".data.isPrefixOf text = true then
      (Ty.unknown,
        { p with
          input := text.drop "!basicpy.UnknownType".data.length
          offset := p.offset +
            (p.input.length - (text.drop "!basicpy.UnknownType".data.length).length) })
    else Host.basic.parseType p
  printType := fun ctx t =>
    match t with
    | Ty.unknown => "!basicpy.UnknownType"
    | _ => Host.basic.printType ctx t

/-- The host's parser accepts the text `u` as a spelling of the unknown marker
type: started at `u` followed by `>`, it returns that type and stops at the `>`,
and it only adds to the context. -/
def Host.SpellsUnknown (h : Host) (u : String) : Prop :=
  ∀ p : DialectAsmParser, p.input = u.data ++ ['>'] →
    (h.parseType p).1 = Ty.unknown ∧ (h.parseType p).2.getToken = Token.greater ∧
      p.context.Extends (h.parseType p).2.context

/-- The host's parser reads the printed form of `T` back as `T` in front of the
remainder `r`: started in the context `ctx` at that text followed by `>` and `r`,
it returns `T` and leaves the cursor at the `>`; it only adds to the context and
keeps it well formed. -/
def Host.ParsesBackBefore (h : Host) (ctx : MLIRContext) (T : Ty) (r : List Char) : Prop :=
  ∀ p : DialectAsmParser, p.context = ctx →
    p.input = (h.printType ctx T).data ++ '>' :: r →
    (h.parseType p).1 = T ∧ (h.parseType p).2.input = '>' :: r ∧
      ctx.Extends (h.parseType p).2.context ∧
      (h.parseType p).2.context.WellFormed h.hash_combine

/-- The types whose printed form can be followed by the remainder `r`: for
`any_dtype` the remainder must not continue the keyword, and an array type of the
context must have the unknown marker or a type the host reads back in front of
`r` as its element. -/
def NumpyDialect.ConstructibleBefore (h : Host) (ctx : MLIRContext) (r : List Char) :
    Ty → Prop
  | Ty.anyDtype => ∀ c : Char, r.head? = some c → Lexer.isIdentCont c = false
  | Ty.ndArray impl =>
    NdArrayType.LiveIn ctx impl ∧
      (NdArrayType.getDtype ctx impl = Ty.unknown ∨
        h.ParsesBackBefore ctx (NdArrayType.getDtype ctx impl) r)
  | _ => False

/-- At the cursor `p` the host's type parser does not move the cursor back: the
text it leaves is no longer than the text it was started at. -/
def Host.NotBackAt (h : Host) (p : DialectAsmParser) : Prop :=
  (h.parseType p).2.input.length ≤ p.input.length

instance Host.decidableNotBackAt (h : Host) (p : DialectAsmParser) :
    Decidable (h.NotBackAt p) := by
  unfold Host.NotBackAt
  exact inferInstance

/-! ## The uniquer -/

theorem StorageUniquer.lookup_some {hv : Nat} {isEqual : NdArrayTypeStorage → Bool}
    {es : List (Nat × NdArrayTypeStorage)} {i : Nat}
    (h : StorageUniquer.lookup hv isEqual es = some i) :
    ∃ e, es[i]? = some e ∧ e.1 = hv ∧ isEqual e.2 = true := by
  induction es generalizing i with
  | nil => simp [StorageUniquer.lookup] at h
  | cons e es ih =>
    unfold StorageUniquer.lookup at h
    split at h
    · rename_i hc
      cases h
      exact ⟨e, by simp, hc.1, hc.2⟩
    · cases hl : StorageUniquer.lookup hv isEqual es with
      | none => simp [hl] at h
      | some j =>
        simp [hl] at h
        subst h
        obtain ⟨e1, h1, h2, h3⟩ := ih hl
        exact ⟨e1, by simpa using h1, h2, h3⟩

theorem StorageUniquer.lookup_none {hv : Nat} {isEqual : NdArrayTypeStorage → Bool}
    {es : List (Nat × NdArrayTypeStorage)}
    (h : StorageUniquer.lookup hv isEqual es = none) :
    ∀ e ∈ es, ¬ (e.1 = hv ∧ isEqual e.2 = true) := by
  induction es with
  | nil => simp
  | cons e es ih =>
    unfold StorageUniquer.lookup at h
    split at h
    · cases h
    · rename_i hc
      intro e1 he1
      rcases List.mem_cons.1 he1 with rfl | hm
      · exact hc
      · exact ih (by simpa using h) e1 hm

theorem StorageUniquer.lookup_lt {hv : Nat} {isEqual : NdArrayTypeStorage → Bool}
    {es : List (Nat × NdArrayTypeStorage)} {i : Nat}
    (h : StorageUniquer.lookup hv isEqual es = some i) : i < es.length := by
  obtain ⟨e, he, _⟩ := StorageUniquer.lookup_some h
  exact (List.getElem?_eq_some.1 he).1

/-- Positions with equal keys coincide in a list whose keys are pairwise distinct. -/
theorem nodup_map_index {α β : Type} (f : α → β) :
    ∀ (l : List α), (l.map f).Nodup → ∀ (i j : Nat) (a b : α),
      l[i]? = some a → l[j]? = some b → f a = f b → i = j := by
  intro l
  induction l with
  | nil => intro _ i j a b hi; simp at hi
  | cons x xs ih =>
    intro hn i j a b hi hj hab
    rw [List.map_cons, List.nodup_cons] at hn
    cases i with
    | zero =>
      cases j with
      | zero => rfl
      | succ j =>
        simp at hi hj
        subst hi
        exact absurd (List.mem_map.2 ⟨b, List.getElem?_mem hj, hab.symm⟩) hn.1
    | succ i =>
      cases j with
      | zero =>
        simp at hi hj
        subst hj
        exact absurd (List.mem_map.2 ⟨a, List.getElem?_mem hi, hab⟩) hn.1
      | succ j =>
        simp at hi hj
        rw [ih hn.2 i j a b hi hj hab]

/-- What `StorageUniquer.get` returns: the storage at the returned address holds
the key under the key's hash, and the old context is kept. -/
theorem StorageUniquer.get_spec (hc : Ty → Nat) (ctx : MLIRContext) (key : KeyTy) :
    (StorageUniquer.get hc ctx key).2.ndArrayStorages[(StorageUniquer.get hc ctx key).1]? =
        some (NdArrayTypeStorage.hashKey hc key, { optionalDtype := key }) ∧
      ctx.Extends (StorageUniquer.get hc ctx key).2 := by
  cases hl : StorageUniquer.lookup (NdArrayTypeStorage.hashKey hc key)
      (fun s => s.eqKey key) ctx.ndArrayStorages with
  | none =>
    simp [StorageUniquer.get, hl, MLIRContext.Extends, NdArrayTypeStorage.construct]
  | some i =>
    obtain ⟨e, he, h1, h2⟩ := StorageUniquer.lookup_some hl
    simp only [NdArrayTypeStorage.eqKey, beq_iff_eq] at h2
    obtain ⟨a, ⟨b⟩⟩ := e
    simp only at h1 h2
    subst h1 h2
    simp [StorageUniquer.get, hl, MLIRContext.Extends, he]

/-- In a well-formed context the uniquer returns the existing instance. -/
theorem StorageUniquer.get_live (hc : Ty → Nat) (ctx : MLIRContext)
    (hw : ctx.WellFormed hc) (a : Nat) (e : Nat × NdArrayTypeStorage)
    (he : ctx.ndArrayStorages[a]? = some e) :
    StorageUniquer.get hc ctx e.2.optionalDtype = (a, ctx) := by
  have hmem : e ∈ ctx.ndArrayStorages := List.getElem?_mem he
  cases hl : StorageUniquer.lookup (NdArrayTypeStorage.hashKey hc e.2.optionalDtype)
      (fun s => s.eqKey e.2.optionalDtype) ctx.ndArrayStorages with
  | none =>
    exact absurd ⟨(hw.1 e hmem).1, by simp [NdArrayTypeStorage.eqKey]⟩
      (StorageUniquer.lookup_none hl e hmem)
  | some i =>
    obtain ⟨e1, he1, _, h2⟩ := StorageUniquer.lookup_some hl
    simp only [NdArrayTypeStorage.eqKey, beq_iff_eq] at h2
    have : i = a := nodup_map_index (fun e => e.2.optionalDtype) _ hw.2 i a e1 e he1 he h2
    simp [StorageUniquer.get, hl, this]

/-- The uniquer keeps the table well formed. -/
theorem StorageUniquer.get_wellFormed (hc : Ty → Nat) (ctx : MLIRContext)
    (hw : ctx.WellFormed hc) (key : KeyTy) (hk : key ≠ Ty.null) :
    (StorageUniquer.get hc ctx key).2.WellFormed hc := by
  cases hl : StorageUniquer.lookup (NdArrayTypeStorage.hashKey hc key)
      (fun s => s.eqKey key) ctx.ndArrayStorages with
  | some i => simpa [StorageUniquer.get, hl] using hw
  | none =>
    have hn := StorageUniquer.lookup_none hl
    simp only [StorageUniquer.get, hl]
    refine ⟨?_, ?_⟩
    · intro e he
      rcases List.mem_append.1 he with h1 | h1
      · exact hw.1 e h1
      · simp at h1
        subst h1
        exact ⟨rfl, hk⟩
    · simp only [List.map_append, List.map_cons, List.map_nil]
      rw [List.nodup_append]
      refine ⟨hw.2, by simp, ?_⟩
      intro k hk1 hk2
      simp [NdArrayTypeStorage.construct] at hk2
      obtain ⟨e, he, hek⟩ := List.mem_map.1 hk1
      exact hn e he ⟨by rw [(hw.1 e he).1, hek, hk2], by simp [NdArrayTypeStorage.eqKey, hek, hk2]⟩

theorem StorageUniquer.lookup_append {hv : Nat} {isEqual : NdArrayTypeStorage → Bool}
    {es : List (Nat × NdArrayTypeStorage)} {i : Nat}
    (h : StorageUniquer.lookup hv isEqual es = some i) (more : List (Nat × NdArrayTypeStorage)) :
    StorageUniquer.lookup hv isEqual (es ++ more) = some i := by
  induction es generalizing i with
  | nil => simp [StorageUniquer.lookup] at h
  | cons e es ih =>
    rw [List.cons_append]
    unfold StorageUniquer.lookup at h ⊢
    split
    · rename_i hc
      simpa [hc] using h
    · rename_i hc
      rw [if_neg hc] at h
      cases hl : StorageUniquer.lookup hv isEqual es with
      | none => simp [hl] at h
      | some j =>
        rw [ih hl]
        simpa [hl] using h

/-- An instance handed out by the uniquer is handed out again for the same key in
every later state of the context. -/
theorem StorageUniquer.get_again (hc : Ty → Nat) (ctx ctx2 : MLIRContext) (key : KeyTy)
    (hext : (StorageUniquer.get hc ctx key).2.Extends ctx2) :
    StorageUniquer.get hc ctx2 key = ((StorageUniquer.get hc ctx key).1, ctx2) := by
  obtain ⟨more, hmore⟩ := hext
  have hfound : StorageUniquer.lookup (NdArrayTypeStorage.hashKey hc key)
      (fun s => s.eqKey key) (StorageUniquer.get hc ctx key).2.ndArrayStorages =
      some (StorageUniquer.get hc ctx key).1 := by
    cases hl : StorageUniquer.lookup (NdArrayTypeStorage.hashKey hc key)
        (fun s => s.eqKey key) ctx.ndArrayStorages with
    | some i => simp [StorageUniquer.get, hl]
    | none =>
      have hn := StorageUniquer.lookup_none hl
      simp only [StorageUniquer.get, hl]
      have key_step : ∀ (es : List (Nat × NdArrayTypeStorage)),
          (∀ e ∈ es, ¬ (e.1 = NdArrayTypeStorage.hashKey hc key ∧
            (fun s : NdArrayTypeStorage => s.eqKey key) e.2 = true)) →
          StorageUniquer.lookup (NdArrayTypeStorage.hashKey hc key) (fun s => s.eqKey key)
            (es ++ [(NdArrayTypeStorage.hashKey hc key, NdArrayTypeStorage.construct key)]) =
            some es.length := by
        intro es
        induction es with
        | nil =>
          intro _
          simp [StorageUniquer.lookup, NdArrayTypeStorage.construct, NdArrayTypeStorage.eqKey]
        | cons e es ih =>
          intro hne
          rw [List.cons_append]
          unfold StorageUniquer.lookup
          rw [if_neg (hne e (List.mem_cons_self _ _))]
          rw [ih (fun e1 h1 => hne e1 (List.mem_cons_of_mem _ h1))]
          simp
      exact key_step _ hn
  have h2 := StorageUniquer.lookup_append hfound more
  rw [hmore] at h2
  simp [StorageUniquer.get, h2]

/-! ## Storage lemmas -/

theorem NdArrayType.getDtype_of_entry {ctx : MLIRContext} {a : Nat}
    {e : Nat × NdArrayTypeStorage} (he : ctx.ndArrayStorages[a]? = some e) :
    NdArrayType.getDtype ctx a = e.2.optionalDtype := by
  simp [NdArrayType.getDtype, NdArrayType.getImpl, he]

theorem NdArrayType.entry_of_live {ctx : MLIRContext} {a : Nat}
    (ha : NdArrayType.LiveIn ctx a) :
    ∃ e, ctx.ndArrayStorages[a]? = some e ∧ e.2.optionalDtype = NdArrayType.getDtype ctx a := by
  refine ⟨ctx.ndArrayStorages[a], List.getElem?_eq_getElem ha, ?_⟩
  rw [NdArrayType.getDtype_of_entry (List.getElem?_eq_getElem ha)]

theorem MLIRContext.Extends.entry {ctx ctx2 : MLIRContext} (hext : ctx.Extends ctx2)
    {a : Nat} {e : Nat × NdArrayTypeStorage} (he : ctx.ndArrayStorages[a]? = some e) :
    ctx2.ndArrayStorages[a]? = some e := by
  obtain ⟨more, hmore⟩ := hext
  rw [← hmore]
  have hlt : a < ctx.ndArrayStorages.length := (List.getElem?_eq_some.1 he).1
  rw [List.getElem?_append_left hlt]
  exact he

/-- In a well-formed context, interning the element type of a live array type
returns that array type and leaves the context as it is. -/
theorem NdArrayType.get_getDtype {hc : Ty → Nat} {ctx : MLIRContext}
    (hw : ctx.WellFormed hc) {a : Nat} (ha : NdArrayType.LiveIn ctx a) :
    NdArrayType.get hc ctx (NdArrayType.getDtype ctx a) = some (Ty.ndArray a, ctx) := by
  obtain ⟨e, he, hed⟩ := NdArrayType.entry_of_live ha
  have hnn : NdArrayType.getDtype ctx a ≠ Ty.null := by
    rw [← hed]
    exact (hw.1 e (List.getElem?_mem he)).2
  have hg := StorageUniquer.get_live hc ctx hw a e he
  rw [hed] at hg
  simp [NdArrayType.get, hnn, hg]

theorem NdArrayType.get_some {hc : Ty → Nat} {ctx : MLIRContext} {d : Ty} (hd : d ≠ Ty.null) :
    NdArrayType.get hc ctx d =
      some (Ty.ndArray (StorageUniquer.get hc ctx d).1, (StorageUniquer.get hc ctx d).2) := by
  simp [NdArrayType.get, hd]

/-! ## The token cursor -/

namespace DialectAsmParser

@[simp] theorem consumeToken_context (p : DialectAsmParser) :
    p.consumeToken.context = p.context := rfl

@[simp] theorem consumeToken_input (p : DialectAsmParser) :
    p.consumeToken.input = (Lexer.lexToken p.input).2 := rfl

@[simp] theorem consumeToken_nameLoc (p : DialectAsmParser) :
    p.consumeToken.nameLoc = p.nameLoc := rfl

@[simp] theorem consumeToken_diagnostics (p : DialectAsmParser) :
    p.consumeToken.diagnostics = p.diagnostics := rfl

theorem parseKeyword_ident {p : DialectAsmParser} {k : String}
    (hk : p.getToken = Token.bare_identifier k) :
    p.parseKeyword = (ParseResult.success, k, p.consumeToken) := by
  simp [parseKeyword, hk]

theorem parseLess_less {p : DialectAsmParser} (hk : p.getToken = Token.less) :
    p.parseLess = (ParseResult.success, p.consumeToken) := by
  simp [parseLess, hk]

theorem parseLess_other {p : DialectAsmParser} (hk : p.getToken ≠ Token.less) :
    p.parseLess = (ParseResult.failure, p.emitError p.getCurrentLocation "expected '<'") := by
  simp [parseLess, hk]

theorem parseGreater_greater {p : DialectAsmParser} (hk : p.getToken = Token.greater) :
    p.parseGreater = (ParseResult.success, p.consumeToken) := by
  simp [parseGreater, hk]

theorem parseGreater_other {p : DialectAsmParser} (hk : p.getToken ≠ Token.greater) :
    p.parseGreater = (ParseResult.failure, p.emitError p.getCurrentLocation "expected '>'") := by
  simp [parseGreater, hk]

theorem parseOptionalQuestion_question {p : DialectAsmParser}
    (hk : p.getToken = Token.question) :
    p.parseOptionalQuestion = (ParseResult.success, p.consumeToken) := by
  simp [parseOptionalQuestion, hk]

theorem parseOptionalQuestion_other {p : DialectAsmParser}
    (hk : p.getToken ≠ Token.question) :
    p.parseOptionalQuestion = (ParseResult.failure, p) := by
  simp [parseOptionalQuestion, hk]

theorem parseType_null {h : Host} {p : DialectAsmParser} (hn : (h.parseType p).1 = Ty.null) :
    p.parseType h = (ParseResult.failure, Ty.null, (h.parseType p).2) := by
  simp [DialectAsmParser.parseType, hn]

theorem parseType_nonnull {h : Host} {p : DialectAsmParser} (hn : (h.parseType p).1 ≠ Ty.null) :
    p.parseType h = (ParseResult.success, (h.parseType p).1, (h.parseType p).2) := by
  simp [DialectAsmParser.parseType, hn]

end DialectAsmParser

/-! ## The paths of `parseType` -/

theorem NumpyDialect.parseType_any_dtype (h : Host) {p : DialectAsmParser}
    (hk : p.getToken = Token.bare_identifier "any_dtype") :
    NumpyDialect.parseType h p = some (Ty.anyDtype, p.consumeToken) := by
  simp [NumpyDialect.parseType, DialectAsmParser.parseKeyword_ident hk]

theorem NumpyDialect.parseType_other_keyword (h : Host) {p : DialectAsmParser} {k : String}
    (hk : p.getToken = Token.bare_identifier k) (h1 : k ≠ "any_dtype") (h2 : k ≠ "ndarray") :
    NumpyDialect.parseType h p =
      some (Ty.null, p.consumeToken.emitError p.getNameLoc ("unknown numpy type: " ++ k)) := by
  simp [NumpyDialect.parseType, DialectAsmParser.parseKeyword_ident hk, h1, h2,
    DialectAsmParser.getNameLoc]

theorem NumpyDialect.parseType_no_less (h : Host) {p : DialectAsmParser}
    (hk : p.getToken = Token.bare_identifier "ndarray")
    (hl : p.consumeToken.getToken ≠ Token.less) :
    NumpyDialect.parseType h p =
      some (Ty.null,
        p.consumeToken.emitError p.consumeToken.getCurrentLocation "expected '<'") := by
  simp [NumpyDialect.parseType, DialectAsmParser.parseKeyword_ident hk,
    DialectAsmParser.parseLess_other hl]

theorem NumpyDialect.parseType_question (h : Host) {p : DialectAsmParser}
    (hk : p.getToken = Token.bare_identifier "ndarray")
    (hl : p.consumeToken.getToken = Token.less)
    (hq : p.consumeToken.consumeToken.getToken = Token.question)
    (hg : p.consumeToken.consumeToken.consumeToken.getToken = Token.greater) :
    NumpyDialect.parseType h p =
      (NdArrayType.get h.hash_combine p.context Ty.unknown).map
        (fun r => (r.1,
          { p.consumeToken.consumeToken.consumeToken.consumeToken with context := r.2 })) := by
  simp [NumpyDialect.parseType, DialectAsmParser.parseKeyword_ident hk,
    DialectAsmParser.parseLess_less hl, DialectAsmParser.parseOptionalQuestion_question hq,
    DialectAsmParser.parseGreater_greater hg]

theorem NumpyDialect.parseType_question_no_greater (h : Host) {p : DialectAsmParser}
    (hk : p.getToken = Token.bare_identifier "ndarray")
    (hl : p.consumeToken.getToken = Token.less)
    (hq : p.consumeToken.consumeToken.getToken = Token.question)
    (hg : p.consumeToken.consumeToken.consumeToken.getToken ≠ Token.greater) :
    NumpyDialect.parseType h p =
      some (Ty.null,
        p.consumeToken.consumeToken.consumeToken.emitError
          p.consumeToken.consumeToken.consumeToken.getCurrentLocation "expected '>'") := by
  simp [NumpyDialect.parseType, DialectAsmParser.parseKeyword_ident hk,
    DialectAsmParser.parseLess_less hl, DialectAsmParser.parseOptionalQuestion_question hq,
    DialectAsmParser.parseGreater_other hg]

theorem NumpyDialect.parseType_nested_fails (h : Host) {p : DialectAsmParser}
    (hk : p.getToken = Token.bare_identifier "ndarray")
    (hl : p.consumeToken.getToken = Token.less)
    (hq : p.consumeToken.consumeToken.getToken ≠ Token.question)
    (hn : (h.parseType p.consumeToken.consumeToken).1 = Ty.null) :
    NumpyDialect.parseType h p =
      some (Ty.null, (h.parseType p.consumeToken.consumeToken).2) := by
  simp [NumpyDialect.parseType, DialectAsmParser.parseKeyword_ident hk,
    DialectAsmParser.parseLess_less hl, DialectAsmParser.parseOptionalQuestion_other hq,
    DialectAsmParser.parseType_null hn]

theorem NumpyDialect.parseType_nested (h : Host) {p : DialectAsmParser}
    (hk : p.getToken = Token.bare_identifier "ndarray")
    (hl : p.consumeToken.getToken = Token.less)
    (hq : p.consumeToken.consumeToken.getToken ≠ Token.question)
    (hn : (h.parseType p.consumeToken.consumeToken).1 ≠ Ty.null)
    (hg : (h.parseType p.consumeToken.consumeToken).2.getToken = Token.greater) :
    NumpyDialect.parseType h p =
      (NdArrayType.get h.hash_combine (h.parseType p.consumeToken.consumeToken).2.context
          (h.parseType p.consumeToken.consumeToken).1).map
        (fun r => (r.1,
          { (h.parseType p.consumeToken.consumeToken).2.consumeToken with context := r.2 })) := by
  simp [NumpyDialect.parseType, DialectAsmParser.parseKeyword_ident hk,
    DialectAsmParser.parseLess_less hl, DialectAsmParser.parseOptionalQuestion_other hq,
    DialectAsmParser.parseType_nonnull hn, DialectAsmParser.parseGreater_greater hg]

theorem NumpyDialect.parseType_nested_no_greater (h : Host) {p : DialectAsmParser}
    (hk : p.getToken = Token.bare_identifier "ndarray")
    (hl : p.consumeToken.getToken = Token.less)
    (hq : p.consumeToken.consumeToken.getToken ≠ Token.question)
    (hn : (h.parseType p.consumeToken.consumeToken).1 ≠ Ty.null)
    (hg : (h.parseType p.consumeToken.consumeToken).2.getToken ≠ Token.greater) :
    NumpyDialect.parseType h p =
      some (Ty.null,
        (h.parseType p.consumeToken.consumeToken).2.emitError
          (h.parseType p.consumeToken.consumeToken).2.getCurrentLocation "expected '>'") := by
  simp [NumpyDialect.parseType, DialectAsmParser.parseKeyword_ident hk,
    DialectAsmParser.parseLess_less hl, DialectAsmParser.parseOptionalQuestion_other hq,
    DialectAsmParser.parseType_nonnull hn, DialectAsmParser.parseGreater_other hg]

/-! ## Lexing the dialect's own text -/

theorem Lexer.lexToken_ndarray (rest : List Char) :
    Lexer.lexToken ("ndarray<".data ++ rest) =
      (Token.bare_identifier "ndarray", '<' :: rest) := rfl

theorem Lexer.lexToken_less (rest : List Char) :
    Lexer.lexToken ('<' :: rest) = (Token.less, rest) := rfl

theorem Lexer.lexToken_greater (rest : List Char) :
    Lexer.lexToken ('>' :: rest) = (Token.greater, rest) := rfl

theorem Lexer.lexToken_question (rest : List Char) :
    Lexer.lexToken ('?' :: rest) = (Token.question, rest) := rfl

theorem DialectAsmParser.create_ndarray (u : String) (ctx : MLIRContext) :
    (DialectAsmParser.create ("ndarray<" ++ u ++ ">") ctx).getToken =
        Token.bare_identifier "ndarray" ∧
      (DialectAsmParser.create ("ndarray<" ++ u ++ ">") ctx).consumeToken.getToken =
        Token.less ∧
      (DialectAsmParser.create ("ndarray<" ++ u ++ ">") ctx).consumeToken.consumeToken.input =
        u.data ++ ['>'] ∧
      (DialectAsmParser.create ("ndarray<" ++ u ++ ">") ctx).consumeToken.consumeToken.context =
        ctx := by
  have hin : (DialectAsmParser.create ("ndarray<" ++ u ++ ">") ctx).input =
      "ndarray<".data ++ (u.data ++ ['>']) := by
    simp only [DialectAsmParser.create, String.data_append, List.append_assoc]
  refine ⟨?_, ?_, ?_, rfl⟩
  · rw [DialectAsmParser.getToken, hin, Lexer.lexToken_ndarray]
  · rw [DialectAsmParser.getToken, DialectAsmParser.consumeToken_input, hin,
      Lexer.lexToken_ndarray, Lexer.lexToken_less]
  · rw [DialectAsmParser.consumeToken_input, DialectAsmParser.consumeToken_input, hin,
      Lexer.lexToken_ndarray, Lexer.lexToken_less]

/-- Parsing `ndarray<?>` in a context interns the array type of the unknown
marker there. -/
theorem NumpyDialect.parseType_text_question (h : Host) (ctx : MLIRContext) :
    NumpyDialect.parseType h (DialectAsmParser.create "ndarray<?>" ctx) =
      some (Ty.ndArray (StorageUniquer.get h.hash_combine ctx Ty.unknown).1,
        { (DialectAsmParser.create "ndarray<?>"
            ctx).consumeToken.consumeToken.consumeToken.consumeToken with
          context := (StorageUniquer.get h.hash_combine ctx Ty.unknown).2 }) := by
  rw [NumpyDialect.parseType_question h (p := DialectAsmParser.create "ndarray<?>" ctx)
    rfl rfl rfl rfl, NdArrayType.get_some (by decide)]
  rfl

/-- Parsing `ndarray<u>` when the host reads `u` as a non-null type and stops at
the `>`: the result is the array type interned for that type in the context the
host leaves. -/
theorem NumpyDialect.parseType_text_nested (h : Host) (hq : h.RejectsQuestion)
    (ctx : MLIRContext) (u : String)
    (hn : (h.parseType
      (DialectAsmParser.create ("ndarray<" ++ u ++ ">") ctx).consumeToken.consumeToken).1 ≠
        Ty.null)
    (hg : (h.parseType
      (DialectAsmParser.create ("ndarray<" ++ u ++ ">") ctx).consumeToken.consumeToken).2.getToken =
        Token.greater) :
    NumpyDialect.parseType h (DialectAsmParser.create ("ndarray<" ++ u ++ ">") ctx) =
      (NdArrayType.get h.hash_combine
        (h.parseType (DialectAsmParser.create ("ndarray<" ++ u ++ ">")
          ctx).consumeToken.consumeToken).2.context
        (h.parseType (DialectAsmParser.create ("ndarray<" ++ u ++ ">")
          ctx).consumeToken.consumeToken).1).map
        (fun r => (r.1,
          { (h.parseType (DialectAsmParser.create ("ndarray<" ++ u ++ ">")
              ctx).consumeToken.consumeToken).2.consumeToken with context := r.2 })) := by
  obtain ⟨hk, hl, _, _⟩ := DialectAsmParser.create_ndarray u ctx
  have hnq : (DialectAsmParser.create ("ndarray<" ++ u ++ ">")
      ctx).consumeToken.consumeToken.getToken ≠ Token.question :=
    fun hq2 => hn (hq _ hq2)
  exact NumpyDialect.parseType_nested h hk hl hnq hn hg

/-! ## The small host -/

theorem Host.basic_rejectsQuestion : Host.basic.RejectsQuestion := by
  intro p hp
  simp [Host.basic, hp]

theorem Host.basic_parse_i32 (p : DialectAsmParser) (hin : p.input = "i32".data ++ ['>']) :
    Host.basic.parseType p = (Ty.other 0, p.consumeToken) ∧
      p.consumeToken.getToken = Token.greater := by
  have hl : Lexer.lexToken p.input = (Token.inttype "i32", ['>']) := by
    rw [hin]
    rfl
  have ht : p.getToken = Token.inttype "i32" := by
    rw [DialectAsmParser.getToken, hl]
  refine ⟨?_, ?_⟩
  · simp [Host.basic, ht]
  · rw [DialectAsmParser.getToken, DialectAsmParser.consumeToken_input, hl]
    rfl

theorem Host.basic_parsesBack_i32 (ctx : MLIRContext)
    (hw : ctx.WellFormed Host.basic.hash_combine) : Host.basic.ParsesBack ctx (Ty.other 0) := by
  intro p hctx hin
  obtain ⟨h1, h2⟩ := Host.basic_parse_i32 p hin
  rw [h1]
  refine ⟨rfl, h2, ?_, ?_⟩
  · rw [DialectAsmParser.consumeToken_context, hctx]
    exact List.prefix_refl _
  · rw [DialectAsmParser.consumeToken_context, hctx]
    exact hw

theorem Host.basic_canonical_i32 (ctx : MLIRContext) :
    Host.basic.CanonicalText ctx "i32" (Ty.other 0) := by
  intro p _ hin
  obtain ⟨h1, h2⟩ := Host.basic_parse_i32 p hin
  rw [h1]
  exact ⟨rfl, h2, fun _ _ => rfl⟩

theorem Lexer.classify_ne_question (sp : List Char) :
    Lexer.classify sp ≠ Token.question := by
  unfold Lexer.classify
  split
  · split_ifs <;> simp
  · split_ifs <;> simp
  · simp

theorem Host.nested_rejectsQuestion (n : Nat) : (Host.nested n).RejectsQuestion := by
  cases n with
  | zero => exact Host.basic_rejectsQuestion
  | succ n =>
    intro p hp
    have hws : ∀ cs : List Char, (Lexer.lexToken cs).1 = Token.question →
        ∃ rest, cs.dropWhile Lexer.isWhitespace = '?' :: rest := by
      intro cs
      induction cs with
      | nil => intro hc; simp [Lexer.lexToken] at hc
      | cons c cs ih =>
        intro hc
        by_cases hw : Lexer.isWhitespace c = true
        · rw [Lexer.lexToken, if_pos hw] at hc
          obtain ⟨rest, hr⟩ := ih hc
          exact ⟨rest, by rw [List.dropWhile_cons_of_pos hw, hr]⟩
        · rw [Lexer.lexToken, if_neg hw] at hc
          by_cases hq : c = '?'
          · exact ⟨cs, by rw [List.dropWhile_cons_of_neg hw, hq]⟩
          · exfalso
            revert hc
            simp only [hq, if_false]
            split_ifs
            · simp
            · simp
            · exact Lexer.classify_ne_question _
            · simp
    obtain ⟨rest, hr⟩ := hws p.input hp
    have hb := Host.basic_rejectsQuestion p hp
    simp only [Host.nested, hr]
    exact hb

/-- In the context that holds `ndarray<?>` at address 0 and the array type of
that array type at address 1, the nested host reads the printed form
`!numpy.ndarray<?>` back as the array type at address 0. -/
theorem Host.nested_parsesBack_array :
    (Host.nested 1).ParsesBack
      { ndArrayStorages :=
          [(1, { optionalDtype := Ty.unknown }), (3, { optionalDtype := Ty.ndArray 0 })] }
      (Ty.ndArray 0) := by
  intro p hctx hin
  have htext : (Host.nested 1).printType
      { ndArrayStorages :=
          [(1, { optionalDtype := Ty.unknown }), (3, { optionalDtype := Ty.ndArray 0 })] }
      (Ty.ndArray 0) = "!numpy.ndarray<?>" := by decide
  rw [htext] at hin
  obtain ⟨input, offset, nameLoc, context, diagnostics⟩ := p
  simp only at hctx hin
  subst hctx hin
  refine ⟨rfl, rfl, List.prefix_refl _, ?_⟩
  show MLIRContext.WellFormed Host.basic.hash_combine
    { ndArrayStorages :=
        [(1, { optionalDtype := Ty.unknown }), (3, { optionalDtype := Ty.ndArray 0 })] }
  decide

/-! ## Interning and accessors -/

/-- C3: within one context, for non-null element types `d1` and `d2`,
`NdArrayType::get(d1)` returns an instance, and in every later state of the
context `NdArrayType::get(d2)` returns an instance that is the identical one if
and only if `d1 = d2`. -/
theorem NdArrayType.get_identical_iff (hc : Ty → Nat) (ctx : MLIRContext) (d1 d2 : Ty)
    (h1 : d1 ≠ Ty.null) (h2 : d2 ≠ Ty.null) :
    ∃ r1, NdArrayType.get hc ctx d1 = some r1 ∧
      ∀ ctx2 : MLIRContext, r1.2.Extends ctx2 →
        ∃ r2, NdArrayType.get hc ctx2 d2 = some r2 ∧ (r1.1 = r2.1 ↔ d1 = d2) := by
  refine ⟨_, NdArrayType.get_some h1, ?_⟩
  intro ctx2 hext
  refine ⟨_, NdArrayType.get_some h2, ?_⟩
  simp only [Ty.ndArray.injEq]
  constructor
  · intro heq
    have e1 := (hext.entry (StorageUniquer.get_spec hc ctx d1).1)
    have e2 := (StorageUniquer.get_spec hc ctx2 d2).1
    rw [← heq] at e2
    have hctx : (StorageUniquer.get hc ctx2 d2).2 = ctx2 := by
      cases hl : StorageUniquer.lookup (NdArrayTypeStorage.hashKey hc d2)
          (fun s => s.eqKey d2) ctx2.ndArrayStorages with
      | some i => simp [StorageUniquer.get, hl]
      | none =>
        exfalso
        have hlen : (StorageUniquer.get hc ctx2 d2).1 = ctx2.ndArrayStorages.length := by
          simp [StorageUniquer.get, hl]
        rw [← heq] at hlen
        have hlt := (List.getElem?_eq_some.1 e1).1
        omega
    rw [hctx, e1] at e2
    simp only [Option.some.injEq, Prod.mk.injEq, NdArrayTypeStorage.mk.injEq] at e2
    exact e2.2
  · intro heq
    subst heq
    rw [StorageUniquer.get_again hc ctx ctx2 d1 hext]

theorem NdArrayType.get_identical_iff_witness :
    (∃ r1, NdArrayType.get Host.basic.hash_combine { ndArrayStorages := [] } Ty.unknown =
        some r1 ∧
      ∀ ctx2 : MLIRContext, r1.2.Extends ctx2 →
        ∃ r2, NdArrayType.get Host.basic.hash_combine ctx2 (Ty.other 0) = some r2 ∧
          (r1.1 = r2.1 ↔ Ty.unknown = Ty.other 0)) ∧
    (∃ r1, NdArrayType.get Host.basic.hash_combine { ndArrayStorages := [] } Ty.unknown =
        some r1 ∧
      ∀ ctx2 : MLIRContext, r1.2.Extends ctx2 →
        ∃ r2, NdArrayType.get Host.basic.hash_combine ctx2 Ty.unknown = some r2 ∧
          (r1.1 = r2.1 ↔ Ty.unknown = Ty.unknown)) ∧
    (∃ r1, NdArrayType.get Host.basic.hash_combine { ndArrayStorages := [] } (Ty.other 0) =
        some r1 ∧
      ∀ ctx2 : MLIRContext, r1.2.Extends ctx2 →
        ∃ r2, NdArrayType.get Host.basic.hash_combine ctx2 (Ty.other 0) = some r2 ∧
          (r1.1 = r2.1 ↔ Ty.other 0 = Ty.other 0)) :=
  ⟨NdArrayType.get_identical_iff Host.basic.hash_combine { ndArrayStorages := [] }
      Ty.unknown (Ty.other 0) (by decide) (by decide),
    NdArrayType.get_identical_iff Host.basic.hash_combine { ndArrayStorages := [] }
      Ty.unknown Ty.unknown (by decide) (by decide),
    NdArrayType.get_identical_iff Host.basic.hash_combine { ndArrayStorages := [] }
      (Ty.other 0) (Ty.other 0) (by decide) (by decide)⟩

/-- C6: for every non-null element type `d` (the unknown marker included),
`NdArrayType::get(d)` returns an array type whose `getDtype()` is `d`. -/
theorem NdArrayType.getDtype_get (hc : Ty → Nat) (ctx : MLIRContext) (d : Ty)
    (hd : d ≠ Ty.null) :
    ∃ a ctx2, NdArrayType.get hc ctx d = some (Ty.ndArray a, ctx2) ∧
      NdArrayType.getDtype ctx2 a = d := by
  refine ⟨_, _, NdArrayType.get_some hd, ?_⟩
  rw [NdArrayType.getDtype_of_entry (StorageUniquer.get_spec hc ctx d).1]

theorem NdArrayType.getDtype_get_witness :
    ∃ a ctx2, NdArrayType.get Host.basic.hash_combine { ndArrayStorages := [] } Ty.unknown =
        some (Ty.ndArray a, ctx2) ∧
      NdArrayType.getDtype ctx2 a = Ty.unknown :=
  NdArrayType.getDtype_get Host.basic.hash_combine { ndArrayStorages := [] } Ty.unknown
    (by decide)

/-- C5 (as amended): for every array type `a`, `a.hasKnownDtype()` is true if and
only if the stored element type is not the `Basicpy::UnknownType` singleton. -/
theorem NdArrayType.hasKnownDtype_iff (ctx : MLIRContext) (a : Nat) :
    NdArrayType.hasKnownDtype ctx a = true ↔ NdArrayType.getDtype ctx a ≠ Ty.unknown := by
  simp [NdArrayType.hasKnownDtype]

/-- C5 fails as stated: the array type interned for the `AnyDtype` singleton (the
type the keyword `any_dtype` parses to) stores that singleton and has
`hasKnownDtype()` true, and the array type interned for the unknown marker stores
a type other than `AnyDtype` and has `hasKnownDtype()` false.  Both array types
are what `parseType` returns, on `ndarray<!numpy.any_dtype>` and on
`ndarray<?>`. -/
theorem NdArrayType.hasKnownDtype_anyDtype_counterexample :
    (NumpyDialect.parseType Host.basic
        (DialectAsmParser.create "any_dtype" { ndArrayStorages := [] })).map (·.1) =
      some Ty.anyDtype ∧
    NdArrayType.get Host.basic.hash_combine { ndArrayStorages := [] } Ty.anyDtype =
      some (Ty.ndArray 0, { ndArrayStorages := [(2, { optionalDtype := Ty.anyDtype })] }) ∧
    ¬ (NdArrayType.hasKnownDtype { ndArrayStorages := [(2, { optionalDtype := Ty.anyDtype })] } 0
        = true ↔
      NdArrayType.getDtype { ndArrayStorages := [(2, { optionalDtype := Ty.anyDtype })] } 0
        ≠ Ty.anyDtype) ∧
    NdArrayType.get Host.basic.hash_combine { ndArrayStorages := [] } Ty.unknown =
      some (Ty.ndArray 0, { ndArrayStorages := [(1, { optionalDtype := Ty.unknown })] }) ∧
    ¬ (NdArrayType.hasKnownDtype { ndArrayStorages := [(1, { optionalDtype := Ty.unknown })] } 0
        = true ↔
      NdArrayType.getDtype { ndArrayStorages := [(1, { optionalDtype := Ty.unknown })] } 0
        ≠ Ty.anyDtype) ∧
    (NumpyDialect.parseType (Host.nested 1)
        (DialectAsmParser.create "ndarray<!numpy.any_dtype>" { ndArrayStorages := [] })).map
        (fun r => (r.1, r.2.context)) =
      some (Ty.ndArray 0, { ndArrayStorages := [(2, { optionalDtype := Ty.anyDtype })] }) ∧
    (NumpyDialect.parseType (Host.nested 1)
        (DialectAsmParser.create "ndarray<?>" { ndArrayStorages := [] })).map
        (fun r => (r.1, r.2.context)) =
      some (Ty.ndArray 0, { ndArrayStorages := [(1, { optionalDtype := Ty.unknown })] }) := by
  decide

/-- C8: `printType` writes exactly `any_dtype` for the `AnyDtype` type; for an
array type it writes `ndarray<`, then `?` when `hasKnownDtype()` is false and the
printed form of `getDtype()` otherwise, then `>`; array types with the same
payload, whose payload the host prints alike, are written alike, whatever their
address and context. -/
theorem NumpyDialect.printType_format (h : Host) (ctx : MLIRContext) :
    NumpyDialect.printType h ctx Ty.anyDtype = some "any_dtype" ∧
    (∀ a : Nat, NumpyDialect.printType h ctx (Ty.ndArray a) =
      some ("ndarray<" ++
        (if NdArrayType.hasKnownDtype ctx a = false then "?"
          else h.printType ctx (NdArrayType.getDtype ctx a)) ++ ">")) ∧
    (∀ (ctx2 : MLIRContext) (a b : Nat),
      NdArrayType.getDtype ctx a = NdArrayType.getDtype ctx2 b →
      h.printType ctx (NdArrayType.getDtype ctx a) =
        h.printType ctx2 (NdArrayType.getDtype ctx2 b) →
      NumpyDialect.printType h ctx (Ty.ndArray a) =
        NumpyDialect.printType h ctx2 (Ty.ndArray b)) := by
  refine ⟨rfl, ?_, ?_⟩
  · intro a
    by_cases hk : NdArrayType.getDtype ctx a = Ty.unknown
    · simp [NumpyDialect.printType, NdArrayType.hasKnownDtype, hk]
    · simp [NumpyDialect.printType, NdArrayType.hasKnownDtype, hk]
  · intro ctx2 a b hab hpr
    rw [hab] at hpr
    simp only [NumpyDialect.printType, hab, hpr]

/-! ## Parsing -/

/-- C7: on the keyword `any_dtype`, `parseType` returns the `AnyDtype` singleton;
on the tokens `ndarray` `<` `?` `>` it returns `NdArrayType::get` of the unknown
marker; on `ndarray` `<` followed by a token other than `?`, when the host's type
parser succeeds with result `d` and stops at `>`, it returns
`NdArrayType::get(d)`. -/
theorem NumpyDialect.parseType_success (h : Host) (p : DialectAsmParser) :
    (p.getToken = Token.bare_identifier "any_dtype" →
      NumpyDialect.parseType h p = some (Ty.anyDtype, p.consumeToken)) ∧
    (p.getToken = Token.bare_identifier "ndarray" →
      p.consumeToken.getToken = Token.less →
      p.consumeToken.consumeToken.getToken = Token.question →
      p.consumeToken.consumeToken.consumeToken.getToken = Token.greater →
      ∃ r, NdArrayType.get h.hash_combine p.context Ty.unknown = some r ∧
        NumpyDialect.parseType h p = some (r.1,
          { p.consumeToken.consumeToken.consumeToken.consumeToken with context := r.2 })) ∧
    (p.getToken = Token.bare_identifier "ndarray" →
      p.consumeToken.getToken = Token.less →
      p.consumeToken.consumeToken.getToken ≠ Token.question →
      (h.parseType p.consumeToken.consumeToken).1 ≠ Ty.null →
      (h.parseType p.consumeToken.consumeToken).2.getToken = Token.greater →
      ∃ r, NdArrayType.get h.hash_combine (h.parseType p.consumeToken.consumeToken).2.context
            (h.parseType p.consumeToken.consumeToken).1 = some r ∧
        NumpyDialect.parseType h p = some (r.1,
          { (h.parseType p.consumeToken.consumeToken).2.consumeToken with context := r.2 })) := by
  refine ⟨NumpyDialect.parseType_any_dtype h, ?_, ?_⟩
  · intro hk hl hq hg
    refine ⟨_, NdArrayType.get_some (by decide), ?_⟩
    rw [NumpyDialect.parseType_question h hk hl hq hg, NdArrayType.get_some (by decide)]
    rfl
  · intro hk hl hq hn hg
    refine ⟨_, NdArrayType.get_some hn, ?_⟩
    rw [NumpyDialect.parseType_nested h hk hl hq hn hg, NdArrayType.get_some hn]
    rfl

theorem NumpyDialect.parseType_success_witness :
    NumpyDialect.parseType Host.basic
        (DialectAsmParser.create "any_dtype" { ndArrayStorages := [] }) =
      some (Ty.anyDtype,
        (DialectAsmParser.create "any_dtype" { ndArrayStorages := [] }).consumeToken) ∧
    (∃ r, NdArrayType.get Host.basic.hash_combine
          (DialectAsmParser.create "ndarray<?>" { ndArrayStorages := [] }).context Ty.unknown =
          some r ∧
      NumpyDialect.parseType Host.basic
          (DialectAsmParser.create "ndarray<?>" { ndArrayStorages := [] }) =
        some (r.1,
          { (DialectAsmParser.create "ndarray<?>"
              { ndArrayStorages := [] }).consumeToken.consumeToken.consumeToken.consumeToken
            with context := r.2 })) ∧
    (∃ r, NdArrayType.get Host.basic.hash_combine
          (Host.basic.parseType (DialectAsmParser.create "ndarray<i32>"
            { ndArrayStorages := [] }).consumeToken.consumeToken).2.context
          (Host.basic.parseType (DialectAsmParser.create "ndarray<i32>"
            { ndArrayStorages := [] }).consumeToken.consumeToken).1 = some r ∧
      NumpyDialect.parseType Host.basic
          (DialectAsmParser.create "ndarray<i32>" { ndArrayStorages := [] }) =
        some (r.1,
          { (Host.basic.parseType (DialectAsmParser.create "ndarray<i32>"
              { ndArrayStorages := [] }).consumeToken.consumeToken).2.consumeToken
            with context := r.2 })) :=
  ⟨(NumpyDialect.parseType_success Host.basic
      (DialectAsmParser.create "any_dtype" { ndArrayStorages := [] })).1 (by decide),
   (NumpyDialect.parseType_success Host.basic
      (DialectAsmParser.create "ndarray<?>" { ndArrayStorages := [] })).2.1
      (by decide) (by decide) (by decide) (by decide),
   (NumpyDialect.parseType_success Host.basic
      (DialectAsmParser.create "ndarray<i32>" { ndArrayStorages := [] })).2.2
      (by decide) (by decide) (by decide) (by decide) (by decide)⟩

/-- C9: for every keyword `k` other than `any_dtype` and `ndarray` (compared
case-sensitively), `parseType` emits the diagnostic `unknown numpy type: ` followed
by `k` at the name location and returns the null type; in a parser created on the
text, the name location is the location of the keyword. -/
theorem NumpyDialect.parseType_unknown_keyword (h : Host) (p : DialectAsmParser) (k : String)
    (hk : p.getToken = Token.bare_identifier k) (h1 : k ≠ "any_dtype") (h2 : k ≠ "ndarray") :
    NumpyDialect.parseType h p =
      some (Ty.null,
        { p.consumeToken with
          diagnostics := p.diagnostics ++
            [{ loc := p.getNameLoc, message := "unknown numpy type: " ++ k }] }) ∧
    (∀ (text : String) (ctx : MLIRContext), p = DialectAsmParser.create text ctx →
      p.getNameLoc = p.getCurrentLocation) := by
  refine ⟨?_, ?_⟩
  · rw [NumpyDialect.parseType_other_keyword h hk h1 h2]
    rfl
  · intro text ctx hp
    subst hp
    simp [DialectAsmParser.getNameLoc, DialectAsmParser.getCurrentLocation,
      DialectAsmParser.create]

theorem NumpyDialect.parseType_unknown_keyword_witness :
    NumpyDialect.parseType Host.basic
        (DialectAsmParser.create " NdArray<?>" { ndArrayStorages := [] }) =
      some (Ty.null,
        { (DialectAsmParser.create " NdArray<?>" { ndArrayStorages := [] }).consumeToken with
          diagnostics :=
            (DialectAsmParser.create " NdArray<?>" { ndArrayStorages := [] }).diagnostics ++
            [{ loc := (DialectAsmParser.create " NdArray<?>"
                  { ndArrayStorages := [] }).getNameLoc,
               message := "unknown numpy type: " ++ "NdArray" }] }) ∧
    (DialectAsmParser.create " NdArray<?>" { ndArrayStorages := [] }).getNameLoc = 1 ∧
    NumpyDialect.parseType Host.basic
        (DialectAsmParser.create "Any_Dtype" { ndArrayStorages := [] }) =
      some (Ty.null,
        { (DialectAsmParser.create "Any_Dtype" { ndArrayStorages := [] }).consumeToken with
          diagnostics :=
            (DialectAsmParser.create "Any_Dtype" { ndArrayStorages := [] }).diagnostics ++
            [{ loc := (DialectAsmParser.create "Any_Dtype"
                  { ndArrayStorages := [] }).getNameLoc,
               message := "unknown numpy type: " ++ "Any_Dtype" }] }) ∧
    NumpyDialect.parseType Host.basic
        (DialectAsmParser.create "nd_array<?>" { ndArrayStorages := [] }) =
      some (Ty.null,
        { (DialectAsmParser.create "nd_array<?>" { ndArrayStorages := [] }).consumeToken with
          diagnostics :=
            (DialectAsmParser.create "nd_array<?>" { ndArrayStorages := [] }).diagnostics ++
            [{ loc := (DialectAsmParser.create "nd_array<?>"
                  { ndArrayStorages := [] }).getNameLoc,
               message := "unknown numpy type: " ++ "nd_array" }] }) :=
  ⟨(NumpyDialect.parseType_unknown_keyword Host.basic
      (DialectAsmParser.create " NdArray<?>" { ndArrayStorages := [] }) "NdArray"
      (by decide) (by decide) (by decide)).1,
    by decide,
    (NumpyDialect.parseType_unknown_keyword Host.basic
      (DialectAsmParser.create "Any_Dtype" { ndArrayStorages := [] }) "Any_Dtype"
      (by decide) (by decide) (by decide)).1,
    (NumpyDialect.parseType_unknown_keyword Host.basic
      (DialectAsmParser.create "nd_array<?>" { ndArrayStorages := [] }) "nd_array"
      (by decide) (by decide) (by decide)).1⟩

/-- C10: for an input that begins with the keyword `ndarray`, when `<` is missing,
or the element is neither `?` nor a type the host's parser accepts, or `>` is
missing, `parseType` returns the null type; so it does on `ndarray<?` and on
`nd_array<?>`. -/
theorem NumpyDialect.parseType_structural_failure (h : Host) (p : DialectAsmParser)
    (hk : p.getToken = Token.bare_identifier "ndarray")
    (hbad : p.consumeToken.getToken ≠ Token.less ∨
      (p.consumeToken.getToken = Token.less ∧
        p.consumeToken.consumeToken.getToken = Token.question ∧
        p.consumeToken.consumeToken.consumeToken.getToken ≠ Token.greater) ∨
      (p.consumeToken.getToken = Token.less ∧
        p.consumeToken.consumeToken.getToken ≠ Token.question ∧
        (h.parseType p.consumeToken.consumeToken).1 = Ty.null) ∨
      (p.consumeToken.getToken = Token.less ∧
        p.consumeToken.consumeToken.getToken ≠ Token.question ∧
        (h.parseType p.consumeToken.consumeToken).1 ≠ Ty.null ∧
        (h.parseType p.consumeToken.consumeToken).2.getToken ≠ Token.greater)) :
    (∃ p2, NumpyDialect.parseType h p = some (Ty.null, p2)) ∧
    (∀ ctx : MLIRContext, ∃ p2,
      NumpyDialect.parseType h (DialectAsmParser.create "ndarray<?" ctx) = some (Ty.null, p2)) ∧
    (∀ ctx : MLIRContext, ∃ p2,
      NumpyDialect.parseType h (DialectAsmParser.create "nd_array<?>" ctx) =
        some (Ty.null, p2)) := by
  refine ⟨?_, ?_, ?_⟩
  · rcases hbad with hl | ⟨hl, hq, hg⟩ | ⟨hl, hq, hn⟩ | ⟨hl, hq, hn, hg⟩
    · exact ⟨_, NumpyDialect.parseType_no_less h hk hl⟩
    · exact ⟨_, NumpyDialect.parseType_question_no_greater h hk hl hq hg⟩
    · exact ⟨_, NumpyDialect.parseType_nested_fails h hk hl hq hn⟩
    · exact ⟨_, NumpyDialect.parseType_nested_no_greater h hk hl hq hn hg⟩
  · intro ctx
    have hg : (DialectAsmParser.create "ndarray<?"
        ctx).consumeToken.consumeToken.consumeToken.getToken ≠ Token.greater := by
      show Token.eof ≠ Token.greater
      decide
    exact ⟨_, NumpyDialect.parseType_question_no_greater h
      (p := DialectAsmParser.create "ndarray<?" ctx) rfl rfl rfl hg⟩
  · intro ctx
    exact ⟨_, NumpyDialect.parseType_other_keyword h
      (p := DialectAsmParser.create "nd_array<?>" ctx) (k := "nd_array") rfl
      (by decide) (by decide)⟩

theorem NumpyDialect.parseType_structural_failure_witness :
    (∃ p2, NumpyDialect.parseType Host.basic
        (DialectAsmParser.create "ndarray<" { ndArrayStorages := [] }) = some (Ty.null, p2)) ∧
    (∀ ctx : MLIRContext, ∃ p2,
      NumpyDialect.parseType Host.basic (DialectAsmParser.create "ndarray<?" ctx) =
        some (Ty.null, p2)) ∧
    (∀ ctx : MLIRContext, ∃ p2,
      NumpyDialect.parseType Host.basic (DialectAsmParser.create "nd_array<?>" ctx) =
        some (Ty.null, p2)) :=
  NumpyDialect.parseType_structural_failure Host.basic
    (DialectAsmParser.create "ndarray<" { ndArrayStorages := [] }) (by decide)
    (Or.inr (Or.inr (Or.inl ⟨by decide, by decide, by decide⟩)))

/-! ## Round trips and the unknown-dtype predicate -/

/-- C1: for every constructible numpy type `t` of a well-formed context
(`any_dtype`, the array type of the unknown marker, and the array type of every
element type whose printed form the host's parser reads back), `printType` writes
a text for `t`, and `parseType` on that text succeeds and returns `t` itself. -/
theorem NumpyDialect.parse_print_roundtrip (h : Host) (hq : h.RejectsQuestion)
    (ctx : MLIRContext) (hw : ctx.WellFormed h.hash_combine) (t : Ty)
    (ht : NumpyDialect.Constructible h ctx t) :
    ∃ s p2, NumpyDialect.printType h ctx t = some s ∧
      NumpyDialect.parseType h (DialectAsmParser.create s ctx) = some (t, p2) := by
  cases t with
  | null => exact absurd ht (by simp [NumpyDialect.Constructible])
  | unknown => exact absurd ht (by simp [NumpyDialect.Constructible])
  | other i => exact absurd ht (by simp [NumpyDialect.Constructible])
  | anyDtype =>
    exact ⟨"any_dtype", _, rfl, NumpyDialect.parseType_any_dtype h rfl⟩
  | ndArray a =>
    obtain ⟨ha, hd⟩ := ht
    by_cases hu : NdArrayType.getDtype ctx a = Ty.unknown
    · have hp := NumpyDialect.parseType_text_question h ctx
      have hg := NdArrayType.get_getDtype hw ha
      rw [hu, NdArrayType.get_some (by decide)] at hg
      simp only [Option.some.injEq, Prod.mk.injEq, Ty.ndArray.injEq] at hg
      rw [hg.1] at hp
      exact ⟨"ndarray<?>", _, by simp [NumpyDialect.printType, hu], hp⟩
    · have hpb : h.ParsesBack ctx (NdArrayType.getDtype ctx a) := by
        rcases hd with hd | hd
        · exact absurd hd hu
        · exact hd
      obtain ⟨e, he, hed⟩ := NdArrayType.entry_of_live ha
      have hnn : NdArrayType.getDtype ctx a ≠ Ty.null := by
        rw [← hed]
        exact (hw.1 e (List.getElem?_mem he)).2
      obtain ⟨_, _, hin, hctx⟩ :=
        DialectAsmParser.create_ndarray (h.printType ctx (NdArrayType.getDtype ctx a)) ctx
      obtain ⟨h1, h2, h3, h4⟩ := hpb _ hctx hin
      have hp := NumpyDialect.parseType_text_nested h hq ctx
        (h.printType ctx (NdArrayType.getDtype ctx a)) (by rw [h1]; exact hnn) h2
      have he2 := h3.entry he
      have hlive : NdArrayType.LiveIn (h.parseType (DialectAsmParser.create
          ("ndarray<" ++ h.printType ctx (NdArrayType.getDtype ctx a) ++ ">")
          ctx).consumeToken.consumeToken).2.context a := (List.getElem?_eq_some.1 he2).1
      have hg := NdArrayType.get_getDtype h4 hlive
      rw [NdArrayType.getDtype_of_entry he2, hed] at hg
      rw [h1, hg] at hp
      exact ⟨_, _, by simp [NumpyDialect.printType, hu], hp⟩

theorem NumpyDialect.parse_print_roundtrip_witness :
    (∃ s p2, NumpyDialect.printType (Host.nested 1)
        { ndArrayStorages :=
            [(1, { optionalDtype := Ty.unknown }), (3, { optionalDtype := Ty.ndArray 0 })] }
        (Ty.ndArray 1) = some s ∧
      NumpyDialect.parseType (Host.nested 1) (DialectAsmParser.create s
        { ndArrayStorages :=
            [(1, { optionalDtype := Ty.unknown }), (3, { optionalDtype := Ty.ndArray 0 })] }) =
        some (Ty.ndArray 1, p2)) ∧
    NumpyDialect.printType (Host.nested 1)
        { ndArrayStorages :=
            [(1, { optionalDtype := Ty.unknown }), (3, { optionalDtype := Ty.ndArray 0 })] }
        (Ty.ndArray 1) = some "ndarray<!numpy.ndarray<?>>" ∧
    (∃ s p2, NumpyDialect.printType Host.basic
        { ndArrayStorages := [(4, { optionalDtype := Ty.other 0 })] } (Ty.ndArray 0) = some s ∧
      NumpyDialect.parseType Host.basic (DialectAsmParser.create s
        { ndArrayStorages := [(4, { optionalDtype := Ty.other 0 })] }) =
        some (Ty.ndArray 0, p2)) :=
  ⟨NumpyDialect.parse_print_roundtrip (Host.nested 1) (Host.nested_rejectsQuestion 1)
      { ndArrayStorages :=
          [(1, { optionalDtype := Ty.unknown }), (3, { optionalDtype := Ty.ndArray 0 })] }
      (by decide) (Ty.ndArray 1) ⟨by decide, Or.inr Host.nested_parsesBack_array⟩,
    by decide,
    NumpyDialect.parse_print_roundtrip Host.basic Host.basic_rejectsQuestion
      { ndArrayStorages := [(4, { optionalDtype := Ty.other 0 })] } (by decide) (Ty.ndArray 0)
      ⟨by decide, Or.inr (Host.basic_parsesBack_i32 _ (by decide))⟩⟩

/-- C2: for every canonical string `s` of the grammar (`any_dtype`, `ndarray<?>`,
and `ndarray<u>` where `u` is the canonical text of a concrete element type),
`parseType` succeeds on `s` and `printType` of the result writes exactly `s`. -/
theorem NumpyDialect.print_parse_roundtrip (h : Host) (hq : h.RejectsQuestion)
    (ctx : MLIRContext) :
    (∃ p2, NumpyDialect.parseType h (DialectAsmParser.create "any_dtype" ctx) =
        some (Ty.anyDtype, p2) ∧
      NumpyDialect.printType h p2.context Ty.anyDtype = some "any_dtype") ∧
    (∃ a p2, NumpyDialect.parseType h (DialectAsmParser.create "ndarray<?>" ctx) =
        some (Ty.ndArray a, p2) ∧
      NumpyDialect.printType h p2.context (Ty.ndArray a) = some "ndarray<?>") ∧
    (∀ (u : String) (T : Ty), T ≠ Ty.null → T ≠ Ty.unknown → h.CanonicalText ctx u T →
      ∃ a p2, NumpyDialect.parseType h (DialectAsmParser.create ("ndarray<" ++ u ++ ">") ctx) =
          some (Ty.ndArray a, p2) ∧
        NumpyDialect.printType h p2.context (Ty.ndArray a) = some ("ndarray<" ++ u ++ ">")) := by
  refine ⟨⟨_, NumpyDialect.parseType_any_dtype h rfl, rfl⟩, ?_, ?_⟩
  · refine ⟨_, _, NumpyDialect.parseType_text_question h ctx, ?_⟩
    have hd := NdArrayType.getDtype_of_entry
      (StorageUniquer.get_spec h.hash_combine ctx Ty.unknown).1
    simp [NumpyDialect.printType, hd]
  · intro u T hn hu hcan
    obtain ⟨_, _, hin, hctx⟩ := DialectAsmParser.create_ndarray u ctx
    obtain ⟨h1, h2, h3⟩ := hcan _ hctx hin
    have hp := NumpyDialect.parseType_text_nested h hq ctx u (by rw [h1]; exact hn) h2
    rw [h1, NdArrayType.get_some hn] at hp
    refine ⟨_, _, hp, ?_⟩
    have hs := StorageUniquer.get_spec h.hash_combine (h.parseType (DialectAsmParser.create
      ("ndarray<" ++ u ++ ">") ctx).consumeToken.consumeToken).2.context T
    have hd := NdArrayType.getDtype_of_entry hs.1
    simp [NumpyDialect.printType, hd, hu, h3 _ hs.2]

theorem NumpyDialect.print_parse_roundtrip_witness :
    ∃ a p2, NumpyDialect.parseType Host.basic
        (DialectAsmParser.create ("ndarray<" ++ "i32" ++ ">") { ndArrayStorages := [] }) =
          some (Ty.ndArray a, p2) ∧
        NumpyDialect.printType Host.basic p2.context (Ty.ndArray a) =
          some ("ndarray<" ++ "i32" ++ ">") :=
  (NumpyDialect.print_parse_roundtrip Host.basic Host.basic_rejectsQuestion
    { ndArrayStorages := [] }).2.2 "i32" (Ty.other 0) (by decide) (by decide)
    (Host.basic_canonical_i32 _)

/-- C4: for every array type `a` of a well-formed context, `a.hasKnownDtype()` is
false exactly when `a` is the instance `parseType` returns for `ndarray<?>`, and
then `printType` writes `a` as `ndarray<?>`; and `hasKnownDtype()` is true for
`NdArrayType::get(T)` with every concrete element type `T`. -/
theorem NdArrayType.hasKnownDtype_false_iff (h : Host) (ctx : MLIRContext)
    (hw : ctx.WellFormed h.hash_combine) (a : Nat) (ha : NdArrayType.LiveIn ctx a) :
    (NdArrayType.hasKnownDtype ctx a = false ↔
      (NumpyDialect.parseType h (DialectAsmParser.create "ndarray<?>" ctx)).map (·.1) =
        some (Ty.ndArray a)) ∧
    (NdArrayType.hasKnownDtype ctx a = false →
      NumpyDialect.printType h ctx (Ty.ndArray a) = some "ndarray<?>") ∧
    (∀ T : Ty, T ≠ Ty.null → T ≠ Ty.unknown →
      ∃ b ctx2, NdArrayType.get h.hash_combine ctx T = some (Ty.ndArray b, ctx2) ∧
        NdArrayType.hasKnownDtype ctx2 b = true) := by
  have hp := NumpyDialect.parseType_text_question h ctx
  refine ⟨?_, ?_, ?_⟩
  · rw [hp]
    simp only [NdArrayType.hasKnownDtype, bne_eq_false_iff_eq, Option.map_some',
      Option.some.injEq, Ty.ndArray.injEq]
    constructor
    · intro hu
      have hg := NdArrayType.get_getDtype hw ha
      rw [hu, NdArrayType.get_some (by decide)] at hg
      simp only [Option.some.injEq, Prod.mk.injEq, Ty.ndArray.injEq] at hg
      exact hg.1
    · intro heq
      obtain ⟨e, he, hed⟩ := NdArrayType.entry_of_live ha
      have hs := StorageUniquer.get_spec h.hash_combine ctx Ty.unknown
      have he2 := hs.2.entry he
      rw [heq, he2] at hs
      rw [← hed]
      have := hs.1
      simp only [Option.some.injEq] at this
      rw [this]
  · intro hu
    simp only [NdArrayType.hasKnownDtype, bne_eq_false_iff_eq] at hu
    simp [NumpyDialect.printType, hu]
  · intro T hn hu
    refine ⟨_, _, NdArrayType.get_some hn, ?_⟩
    rw [NdArrayType.hasKnownDtype,
      NdArrayType.getDtype_of_entry (StorageUniquer.get_spec h.hash_combine ctx T).1]
    simpa using hu

theorem NdArrayType.hasKnownDtype_false_iff_witness :
    (NdArrayType.hasKnownDtype
        { ndArrayStorages := [(4, { optionalDtype := Ty.other 0 }),
          (1, { optionalDtype := Ty.unknown })] } 1 = false ↔
      (NumpyDialect.parseType Host.basic (DialectAsmParser.create "ndarray<?>"
        { ndArrayStorages := [(4, { optionalDtype := Ty.other 0 }),
          (1, { optionalDtype := Ty.unknown })] })).map (·.1) = some (Ty.ndArray 1)) ∧
    NdArrayType.hasKnownDtype
        { ndArrayStorages := [(4, { optionalDtype := Ty.other 0 }),
          (1, { optionalDtype := Ty.unknown })] } 1 = false :=
  ⟨(NdArrayType.hasKnownDtype_false_iff Host.basic
      { ndArrayStorages := [(4, { optionalDtype := Ty.other 0 }),
        (1, { optionalDtype := Ty.unknown })] } (by decide) 1 (by decide)).1,
    by decide⟩

/-! ## Cursor movement -/

theorem Lexer.lexToken_length_le (cs : List Char) :
    (Lexer.lexToken cs).2.length ≤ cs.length := by
  induction cs with
  | nil => simp [Lexer.lexToken]
  | cons c cs ih =>
    unfold Lexer.lexToken
    split_ifs
    · exact Nat.le_succ_of_le ih
    · simp
    · simp
    · simp
    · exact Nat.le_succ_of_le (List.dropWhile_sublist _).length_le
    · simp

theorem Lexer.lexToken_length_lt (c : Char) (cs : List Char) :
    (Lexer.lexToken (c :: cs)).2.length < (c :: cs).length := by
  unfold Lexer.lexToken
  split_ifs
  · exact Nat.lt_succ_of_le (Lexer.lexToken_length_le cs)
  · simp
  · simp
  · simp
  · exact Nat.lt_succ_of_le (List.dropWhile_sublist _).length_le
  · simp

/-- Moving past a token other than the end of the text shortens the text that is
left. -/
theorem DialectAsmParser.consumeToken_length_lt {p : DialectAsmParser}
    (hne : p.getToken ≠ Token.eof) : p.consumeToken.input.length < p.input.length := by
  rw [DialectAsmParser.consumeToken_input]
  cases hp : p.input with
  | nil =>
    exfalso
    apply hne
    rw [DialectAsmParser.getToken, hp]
    rfl
  | cons c cs => exact Lexer.lexToken_length_lt c cs

theorem DialectAsmParser.parseKeyword_other {p : DialectAsmParser}
    (hk : ∀ k : String, p.getToken ≠ Token.bare_identifier k) :
    p.parseKeyword =
      (ParseResult.failure, "", p.emitError p.getCurrentLocation "expected valid keyword") := by
  unfold DialectAsmParser.parseKeyword
  split
  · rename_i k hk2
    exact absurd hk2 (hk k)
  · rfl

theorem NumpyDialect.parseType_no_keyword (h : Host) {p : DialectAsmParser}
    (hk : ∀ k : String, p.getToken ≠ Token.bare_identifier k) :
    NumpyDialect.parseType h p =
      some (Ty.null, p.emitError p.getCurrentLocation "expected valid keyword") := by
  simp [NumpyDialect.parseType, DialectAsmParser.parseKeyword_other hk]

/-- The tokens at a cursor whose text starts with `ndarray<`. -/
theorem DialectAsmParser.tokens_ndarray {p : DialectAsmParser} {rest : List Char}
    (hin : p.input = "ndarray<".data ++ rest) :
    p.getToken = Token.bare_identifier "ndarray" ∧
      p.consumeToken.getToken = Token.less ∧
      p.consumeToken.consumeToken.input = rest ∧
      p.consumeToken.consumeToken.context = p.context := by
  refine ⟨?_, ?_, ?_, rfl⟩
  · rw [DialectAsmParser.getToken, hin, Lexer.lexToken_ndarray]
  · rw [DialectAsmParser.getToken, DialectAsmParser.consumeToken_input, hin,
      Lexer.lexToken_ndarray, Lexer.lexToken_less]
  · rw [DialectAsmParser.consumeToken_input, DialectAsmParser.consumeToken_input, hin,
      Lexer.lexToken_ndarray, Lexer.lexToken_less]

/-! ## Inference bridge and the storage key -/

/-- C12: for every array type `a`, `a.mapToCPAType(context)` returns the result of
`newArrayType` called with the identifier of `!NdArray` and an element node that is
absent when `a.hasKnownDtype()` is false and is `context.getIRValueType(a.getDtype())`
when it is true; when it is false (as for `ndarray<?>`) the result does not depend
on `getIRValueType`, which is not called. -/
theorem NdArrayType.mapToCPAType_node {TypeNode Identifier State : Type}
    (cpa : CPA.Engine TypeNode Identifier State) (hc : Ty → Nat) (ctx : MLIRContext)
    (a : Nat) (c : State) :
    (NdArrayType.hasKnownDtype ctx a = false →
      NdArrayType.mapToCPAType cpa hc ctx a c =
        cpa.newArrayType (cpa.getIdentifier c "!NdArray").2 (NdArrayType.irCtor hc)
          (cpa.getIdentifier c "!NdArray").1 none) ∧
    (NdArrayType.hasKnownDtype ctx a = true →
      NdArrayType.mapToCPAType cpa hc ctx a c =
        cpa.newArrayType
          (cpa.getIdentifier
            (cpa.getIRValueType c ctx (NdArrayType.getDtype ctx a)).2 "!NdArray").2
          (NdArrayType.irCtor hc)
          (cpa.getIdentifier
            (cpa.getIRValueType c ctx (NdArrayType.getDtype ctx a)).2 "!NdArray").1
          (some (cpa.getIRValueType c ctx (NdArrayType.getDtype ctx a)).1)) ∧
    (NdArrayType.hasKnownDtype ctx a = false →
      ∀ cpa2 : CPA.Engine TypeNode Identifier State,
        cpa2.getIdentifier = cpa.getIdentifier → cpa2.newArrayType = cpa.newArrayType →
        NdArrayType.mapToCPAType cpa2 hc ctx a c = NdArrayType.mapToCPAType cpa hc ctx a c) := by
  refine ⟨?_, ?_, ?_⟩
  · intro hk
    simp [NdArrayType.mapToCPAType, hk]
  · intro hk
    simp [NdArrayType.mapToCPAType, hk]
  · intro hk cpa2 h1 h2
    simp [NdArrayType.mapToCPAType, hk, h1, h2]

theorem NdArrayType.mapToCPAType_node_witness :
    NdArrayType.mapToCPAType CPA.Engine.logging Host.basic.hash_combine
        { ndArrayStorages :=
            [(1, { optionalDtype := Ty.unknown }), (4, { optionalDtype := Ty.other 0 })] } 0 [] =
      CPA.Engine.logging.newArrayType (CPA.Engine.logging.getIdentifier [] "!NdArray").2
        (NdArrayType.irCtor Host.basic.hash_combine)
        (CPA.Engine.logging.getIdentifier [] "!NdArray").1 none ∧
    (NdArrayType.mapToCPAType CPA.Engine.logging Host.basic.hash_combine
        { ndArrayStorages :=
            [(1, { optionalDtype := Ty.unknown }), (4, { optionalDtype := Ty.other 0 })] } 0 []).2 =
      [CPA.Call.getIdentifier "!NdArray", CPA.Call.newArrayType "!NdArray" none] ∧
    (NdArrayType.mapToCPAType CPA.Engine.logging Host.basic.hash_combine
        { ndArrayStorages :=
            [(1, { optionalDtype := Ty.unknown }), (4, { optionalDtype := Ty.other 0 })] } 1 []).2 =
      [CPA.Call.getIRValueType (Ty.other 0), CPA.Call.getIdentifier "!NdArray",
        CPA.Call.newArrayType "!NdArray" (some 0)] :=
  ⟨(NdArrayType.mapToCPAType_node CPA.Engine.logging Host.basic.hash_combine
      { ndArrayStorages :=
          [(1, { optionalDtype := Ty.unknown }), (4, { optionalDtype := Ty.other 0 })] }
      0 []).1 (by decide),
    by decide, by decide⟩

/-- C13: every `mapToCPAType` hands the same reconstruction closure to the engine,
whatever array type is mapped; invoked with exactly one non-null field type `t`
the closure returns `NdArrayType::get(t)`, whatever its other arguments are; and
invoked with `[a.getDtype()]` in a well-formed context it returns `a` itself. -/
theorem NdArrayType.irCtor_reconstructs (hc : Ty → Nat) :
    (∀ (TypeNode Identifier State : Type) (cpa : CPA.Engine TypeNode Identifier State)
        (ctx : MLIRContext) (a : Nat) (c : State),
      ∃ c2 label element, NdArrayType.mapToCPAType cpa hc ctx a c =
        cpa.newArrayType c2 (NdArrayType.irCtor hc) label element) ∧
    (∀ (ctx : MLIRContext) (a : Nat),
      (NdArrayType.mapToCPAType CPA.Engine.capture hc ctx a ()).1 = NdArrayType.irCtor hc) ∧
    (∀ (ovt : CPA.ObjectValueType) (mlirContext : MLIRContextPtr) (loc : Option Location)
        (ctx : MLIRContext) (t : Ty), t ≠ Ty.null →
      NdArrayType.irCtor hc ovt [t] mlirContext loc ctx = NdArrayType.get hc ctx t ∧
      ∃ b ctx2, NdArrayType.irCtor hc ovt [t] mlirContext loc ctx = some (Ty.ndArray b, ctx2)) ∧
    (∀ (ovt : CPA.ObjectValueType) (mlirContext : MLIRContextPtr) (loc : Option Location)
        (ctx : MLIRContext) (a : Nat), ctx.WellFormed hc → NdArrayType.LiveIn ctx a →
      NdArrayType.irCtor hc ovt [NdArrayType.getDtype ctx a] mlirContext loc ctx =
        some (Ty.ndArray a, ctx)) := by
  refine ⟨?_, ?_, ?_, ?_⟩
  · intro N I S cpa ctx a c
    exact ⟨_, _, _, rfl⟩
  · intro ctx a
    rfl
  · intro ovt mc loc ctx t ht
    exact ⟨rfl, _, _, NdArrayType.get_some ht⟩
  · intro ovt mc loc ctx a hw ha
    exact NdArrayType.get_getDtype hw ha

theorem NdArrayType.irCtor_reconstructs_witness :
    (NdArrayType.irCtor Host.basic.hash_combine 7 [Ty.other 0] 9 (some 3)
        { ndArrayStorages :=
            [(1, { optionalDtype := Ty.unknown }), (4, { optionalDtype := Ty.other 0 })] } =
      NdArrayType.get Host.basic.hash_combine
        { ndArrayStorages :=
            [(1, { optionalDtype := Ty.unknown }), (4, { optionalDtype := Ty.other 0 })] }
        (Ty.other 0) ∧
      ∃ b ctx2, NdArrayType.irCtor Host.basic.hash_combine 7 [Ty.other 0] 9 (some 3)
        { ndArrayStorages :=
            [(1, { optionalDtype := Ty.unknown }), (4, { optionalDtype := Ty.other 0 })] } =
        some (Ty.ndArray b, ctx2)) ∧
    NdArrayType.irCtor Host.basic.hash_combine 7
        [NdArrayType.getDtype { ndArrayStorages :=
            [(1, { optionalDtype := Ty.unknown }), (4, { optionalDtype := Ty.other 0 })] } 1]
        9 (some 3)
        { ndArrayStorages :=
            [(1, { optionalDtype := Ty.unknown }), (4, { optionalDtype := Ty.other 0 })] } =
      some (Ty.ndArray 1, { ndArrayStorages :=
            [(1, { optionalDtype := Ty.unknown }), (4, { optionalDtype := Ty.other 0 })] }) :=
  ⟨(NdArrayType.irCtor_reconstructs Host.basic.hash_combine).2.2.1 7 9 (some 3)
      { ndArrayStorages :=
          [(1, { optionalDtype := Ty.unknown }), (4, { optionalDtype := Ty.other 0 })] }
      (Ty.other 0) (by decide),
    (NdArrayType.irCtor_reconstructs Host.basic.hash_combine).2.2.2 7 9 (some 3)
      { ndArrayStorages :=
          [(1, { optionalDtype := Ty.unknown }), (4, { optionalDtype := Ty.other 0 })] }
      1 (by decide) (by decide)⟩

/-- C14: invoked with a sequence of field types whose length is not 1, the
reconstruction closure fails its assertion and returns no array type, whatever
its other arguments are. -/
theorem NdArrayType.irCtor_arity (hc : Ty → Nat) (ovt : CPA.ObjectValueType)
    (fieldTypes : List Ty) (mlirContext : MLIRContextPtr) (loc : Option Location)
    (ctx : MLIRContext) (hlen : fieldTypes.length ≠ 1) :
    NdArrayType.irCtor hc ovt fieldTypes mlirContext loc ctx = none := by
  simp [NdArrayType.irCtor, hlen]

theorem NdArrayType.irCtor_arity_witness :
    NdArrayType.irCtor Host.basic.hash_combine 0 [] 0 none { ndArrayStorages := [] } = none ∧
    NdArrayType.irCtor Host.basic.hash_combine 0 [Ty.other 0, Ty.other 1] 0 none
      { ndArrayStorages := [] } = none :=
  ⟨NdArrayType.irCtor_arity Host.basic.hash_combine 0 [] 0 none { ndArrayStorages := [] }
      (by decide),
    NdArrayType.irCtor_arity Host.basic.hash_combine 0 [Ty.other 0, Ty.other 1] 0 none
      { ndArrayStorages := [] } (by decide)⟩

/-- C15: `NdArrayType::get(d)` fails its assertion if and only if `d` is the null
type reference; for every non-null `d`, the unknown marker included, it returns
an array type. -/
theorem NdArrayType.get_none_iff (hc : Ty → Nat) (ctx : MLIRContext) (d : Ty) :
    (NdArrayType.get hc ctx d = none ↔ d = Ty.null) ∧
    (d ≠ Ty.null → ∃ a ctx2, NdArrayType.get hc ctx d = some (Ty.ndArray a, ctx2)) := by
  refine ⟨?_, fun hd => ⟨_, _, NdArrayType.get_some hd⟩⟩
  by_cases hd : d = Ty.null
  · simp [NdArrayType.get, hd]
  · simp [NdArrayType.get, hd]

theorem NdArrayType.get_none_iff_witness :
    (∃ a ctx2, NdArrayType.get Host.basic.hash_combine { ndArrayStorages := [] } Ty.unknown =
      some (Ty.ndArray a, ctx2)) ∧
    NdArrayType.get Host.basic.hash_combine { ndArrayStorages := [] } Ty.null = none :=
  ⟨(NdArrayType.get_none_iff Host.basic.hash_combine { ndArrayStorages := [] }
      Ty.unknown).2 (by decide),
    (NdArrayType.get_none_iff Host.basic.hash_combine { ndArrayStorages := [] }
      Ty.null).1.2 rfl⟩

/-- C16: a storage built from the key `k` compares equal to a key `k2` if and only
if `k = k2`, and equal keys have equal `hashKey`. -/
theorem NdArrayTypeStorage.key_laws (hc : Ty → Nat) (k k2 : KeyTy) :
    ((NdArrayTypeStorage.construct k).eqKey k2 = true ↔ k = k2) ∧
    (k = k2 → NdArrayTypeStorage.hashKey hc k = NdArrayTypeStorage.hashKey hc k2) := by
  refine ⟨?_, fun hk => by rw [hk]⟩
  simp [NdArrayTypeStorage.construct, NdArrayTypeStorage.eqKey]

theorem NdArrayTypeStorage.key_laws_witness :
    ((NdArrayTypeStorage.construct Ty.unknown).eqKey Ty.unknown = true ↔
      Ty.unknown = Ty.unknown) ∧
    ((NdArrayTypeStorage.construct Ty.unknown).eqKey (Ty.other 0) = true ↔
      Ty.unknown = Ty.other 0) ∧
    NdArrayTypeStorage.hashKey Host.basic.hash_combine (Ty.other 0) =
      NdArrayTypeStorage.hashKey Host.basic.hash_combine (Ty.other 0) :=
  ⟨(NdArrayTypeStorage.key_laws Host.basic.hash_combine Ty.unknown Ty.unknown).1,
    (NdArrayTypeStorage.key_laws Host.basic.hash_combine Ty.unknown (Ty.other 0)).1,
    (NdArrayTypeStorage.key_laws Host.basic.hash_combine (Ty.other 0) (Ty.other 0)).2 rfl⟩

/-! ## Failure and the cursor -/

/-- C11 (as amended): when `parseType` fails on a structural mismatch in the
`ndarray` branch, it returns the null type in the state the failing parser call
leaves, with no further call: after a missing `<` the cursor stands behind the
keyword, after `?` and a missing `>` behind the `?`, after a failed or
unterminated nested type where the host's parser left it.  The tokens read before
the mismatch stay consumed: the text left is shorter than at the call, in the
nested branches for a host whose parser does not move the cursor back. -/
theorem NumpyDialect.parseType_failure_cursor (h : Host) (p : DialectAsmParser)
    (hk : p.getToken = Token.bare_identifier "ndarray") :
    (p.consumeToken.getToken ≠ Token.less →
      ∃ p2, NumpyDialect.parseType h p = some (Ty.null, p2) ∧
        p2 = p.consumeToken.emitError p.consumeToken.getCurrentLocation "expected '<'" ∧
        p2.input = p.consumeToken.input ∧ p2.input.length < p.input.length) ∧
    (p.consumeToken.getToken = Token.less →
      p.consumeToken.consumeToken.getToken = Token.question →
      p.consumeToken.consumeToken.consumeToken.getToken ≠ Token.greater →
      ∃ p2, NumpyDialect.parseType h p = some (Ty.null, p2) ∧
        p2 = p.consumeToken.consumeToken.consumeToken.emitError
          p.consumeToken.consumeToken.consumeToken.getCurrentLocation "expected '>'" ∧
        p2.input = p.consumeToken.consumeToken.consumeToken.input ∧
        p2.input.length < p.input.length) ∧
    (p.consumeToken.getToken = Token.less →
      p.consumeToken.consumeToken.getToken ≠ Token.question →
      (h.parseType p.consumeToken.consumeToken).1 = Ty.null →
      NumpyDialect.parseType h p =
          some (Ty.null, (h.parseType p.consumeToken.consumeToken).2) ∧
        (h.NotBackAt p.consumeToken.consumeToken →
          (h.parseType p.consumeToken.consumeToken).2.input.length < p.input.length)) ∧
    (p.consumeToken.getToken = Token.less →
      p.consumeToken.consumeToken.getToken ≠ Token.question →
      (h.parseType p.consumeToken.consumeToken).1 ≠ Ty.null →
      (h.parseType p.consumeToken.consumeToken).2.getToken ≠ Token.greater →
      ∃ p2, NumpyDialect.parseType h p = some (Ty.null, p2) ∧
        p2 = (h.parseType p.consumeToken.consumeToken).2.emitError
          (h.parseType p.consumeToken.consumeToken).2.getCurrentLocation "expected '>'" ∧
        p2.input = (h.parseType p.consumeToken.consumeToken).2.input ∧
        (h.NotBackAt p.consumeToken.consumeToken → p2.input.length < p.input.length)) := by
  have h1 : p.consumeToken.input.length < p.input.length :=
    DialectAsmParser.consumeToken_length_lt (by rw [hk]; simp)
  refine ⟨?_, ?_, ?_, ?_⟩
  · intro hl
    exact ⟨_, NumpyDialect.parseType_no_less h hk hl, rfl, rfl, h1⟩
  · intro hl hq hg
    refine ⟨_, NumpyDialect.parseType_question_no_greater h hk hl hq hg, rfl, rfl, ?_⟩
    have h2 : p.consumeToken.consumeToken.input.length < p.consumeToken.input.length :=
      DialectAsmParser.consumeToken_length_lt (by rw [hl]; simp)
    have h3 : p.consumeToken.consumeToken.consumeToken.input.length <
        p.consumeToken.consumeToken.input.length :=
      DialectAsmParser.consumeToken_length_lt (by rw [hq]; simp)
    show p.consumeToken.consumeToken.consumeToken.input.length < p.input.length
    omega
  · intro hl hq hn
    refine ⟨NumpyDialect.parseType_nested_fails h hk hl hq hn, ?_⟩
    intro hb
    have h2 : p.consumeToken.consumeToken.input.length < p.consumeToken.input.length :=
      DialectAsmParser.consumeToken_length_lt (by rw [hl]; simp)
    have hb2 : (h.parseType p.consumeToken.consumeToken).2.input.length ≤
        p.consumeToken.consumeToken.input.length := hb
    omega
  · intro hl hq hn hg
    refine ⟨_, NumpyDialect.parseType_nested_no_greater h hk hl hq hn hg, rfl, rfl, ?_⟩
    intro hb
    have h2 : p.consumeToken.consumeToken.input.length < p.consumeToken.input.length :=
      DialectAsmParser.consumeToken_length_lt (by rw [hl]; simp)
    have hb2 : (h.parseType p.consumeToken.consumeToken).2.input.length ≤
        p.consumeToken.consumeToken.input.length := hb
    show (h.parseType p.consumeToken.consumeToken).2.input.length < p.input.length
    omega

theorem NumpyDialect.parseType_failure_cursor_witness :
    (∃ p2, NumpyDialect.parseType Host.basic
        (DialectAsmParser.create "ndarray i32" { ndArrayStorages := [] }) =
          some (Ty.null, p2) ∧
        p2 = (DialectAsmParser.create "ndarray i32"
            { ndArrayStorages := [] }).consumeToken.emitError
          (DialectAsmParser.create "ndarray i32"
            { ndArrayStorages := [] }).consumeToken.getCurrentLocation "expected '<'" ∧
        p2.input = (DialectAsmParser.create "ndarray i32"
            { ndArrayStorages := [] }).consumeToken.input ∧
        p2.input.length <
          (DialectAsmParser.create "ndarray i32" { ndArrayStorages := [] }).input.length) ∧
    (DialectAsmParser.create "ndarray i32" { ndArrayStorages := [] }).consumeToken.input =
      " i32".data ∧
    (Host.basic.parseType (DialectAsmParser.create "ndarray<x>"
        { ndArrayStorages := [] }).consumeToken.consumeToken).2.input.length <
      (DialectAsmParser.create "ndarray<x>" { ndArrayStorages := [] }).input.length ∧
    (∃ p2, NumpyDialect.parseType Host.basic
        (DialectAsmParser.create "ndarray<i32 x" { ndArrayStorages := [] }) =
          some (Ty.null, p2) ∧
        p2 = (Host.basic.parseType (DialectAsmParser.create "ndarray<i32 x"
            { ndArrayStorages := [] }).consumeToken.consumeToken).2.emitError
          (Host.basic.parseType (DialectAsmParser.create "ndarray<i32 x"
            { ndArrayStorages := [] }).consumeToken.consumeToken).2.getCurrentLocation
          "expected '>'" ∧
        p2.input = (Host.basic.parseType (DialectAsmParser.create "ndarray<i32 x"
            { ndArrayStorages := [] }).consumeToken.consumeToken).2.input ∧
        (Host.basic.NotBackAt (DialectAsmParser.create "ndarray<i32 x"
            { ndArrayStorages := [] }).consumeToken.consumeToken →
          p2.input.length <
            (DialectAsmParser.create "ndarray<i32 x" { ndArrayStorages := [] }).input.length)) ∧
    Host.basic.NotBackAt (DialectAsmParser.create "ndarray<i32 x"
      { ndArrayStorages := [] }).consumeToken.consumeToken :=
  ⟨(NumpyDialect.parseType_failure_cursor Host.basic
      (DialectAsmParser.create "ndarray i32" { ndArrayStorages := [] }) (by decide)).1
      (by decide),
    by decide,
    ((NumpyDialect.parseType_failure_cursor Host.basic
      (DialectAsmParser.create "ndarray<x>" { ndArrayStorages := [] }) (by decide)).2.2.1
      (by decide) (by decide) (by decide)).2 (by decide),
    (NumpyDialect.parseType_failure_cursor Host.basic
      (DialectAsmParser.create "ndarray<i32 x" { ndArrayStorages := [] }) (by decide)).2.2.2
      (by decide) (by decide) (by decide) (by decide),
    by decide⟩

/-- C11 fails as stated: on `ndarray<?` and on `ndarray i32`, `parseType` returns
the null type with the cursor moved past the tokens it read, not where it was
when `parseType` was called. -/
theorem NumpyDialect.parseType_failure_cursor_counterexample :
    (NumpyDialect.parseType Host.basic
        (DialectAsmParser.create "ndarray<?" { ndArrayStorages := [] })).map
        (fun r => (r.1, r.2.input, r.2.offset)) = some (Ty.null, [], 9) ∧
    (DialectAsmParser.create "ndarray<?" { ndArrayStorages := [] }).input =
      ['n', 'd', 'a', 'r', 'r', 'a', 'y', '<', '?'] ∧
    (DialectAsmParser.create "ndarray<?" { ndArrayStorages := [] }).offset = 0 ∧
    ¬ ((NumpyDialect.parseType Host.basic
          (DialectAsmParser.create "ndarray<?" { ndArrayStorages := [] })).map
          (fun r => r.2.input) =
        some (DialectAsmParser.create "ndarray<?" { ndArrayStorages := [] }).input) ∧
    (NumpyDialect.parseType Host.basic
        (DialectAsmParser.create "ndarray i32" { ndArrayStorages := [] })).map
        (fun r => (r.1, r.2.input, r.2.offset)) = some (Ty.null, [' ', 'i', '3', '2'], 7) ∧
    ¬ ((NumpyDialect.parseType Host.basic
          (DialectAsmParser.create "ndarray i32" { ndArrayStorages := [] })).map
          (fun r => r.2.input) =
        some (DialectAsmParser.create "ndarray i32" { ndArrayStorages := [] }).input) := by
  decide

/-- C18: `parseType` never fails the null-dtype assertion of `NdArrayType::get`:
it always returns, and an array type it returns was interned for a non-null
element type, the unknown marker after `?` or the non-null result of the host's
type parser (whose success is, by `DialectAsmParser::parseType`, a non-null
result). -/
theorem NumpyDialect.parseType_never_asserts (h : Host) (p : DialectAsmParser) :
    (∃ r, NumpyDialect.parseType h p = some r) ∧
    (∀ q : DialectAsmParser, (q.parseType h).1 = ParseResult.success →
      (q.parseType h).2.1 ≠ Ty.null) ∧
    (∀ (a : Nat) (p2 : DialectAsmParser),
      NumpyDialect.parseType h p = some (Ty.ndArray a, p2) →
      ∃ (d : Ty) (ctx : MLIRContext), d ≠ Ty.null ∧
        (d = Ty.unknown ∨ d = (h.parseType p.consumeToken.consumeToken).1) ∧
        NdArrayType.get h.hash_combine ctx d = some (Ty.ndArray a, p2.context)) := by
  have hwrap : ∀ q : DialectAsmParser, (q.parseType h).1 = ParseResult.success →
      (q.parseType h).2.1 ≠ Ty.null := by
    intro q hq hnull
    have hnull2 : (h.parseType q).1 = Ty.null := hnull
    rw [DialectAsmParser.parseType_null hnull2] at hq
    cases hq
  by_cases hk : ∃ k : String, p.getToken = Token.bare_identifier k
  · obtain ⟨k, hk⟩ := hk
    by_cases ha : k = "any_dtype"
    · subst ha
      have hp := NumpyDialect.parseType_any_dtype h hk
      exact ⟨⟨_, hp⟩, hwrap, fun a p2 hr => by rw [hp] at hr; simp at hr⟩
    by_cases hn : k = "ndarray"
    · subst hn
      by_cases hl : p.consumeToken.getToken = Token.less
      · by_cases hq : p.consumeToken.consumeToken.getToken = Token.question
        · by_cases hg : p.consumeToken.consumeToken.consumeToken.getToken = Token.greater
          · have hp := NumpyDialect.parseType_question h hk hl hq hg
            rw [NdArrayType.get_some (by decide)] at hp
            refine ⟨⟨_, hp⟩, hwrap, fun a p2 hr => ?_⟩
            rw [hp] at hr
            simp only [Option.map_some', Option.some.injEq, Prod.mk.injEq] at hr
            refine ⟨Ty.unknown, p.context, by decide, Or.inl rfl, ?_⟩
            rw [NdArrayType.get_some (by decide), ← hr.1, ← hr.2]
          · have hp := NumpyDialect.parseType_question_no_greater h hk hl hq hg
            exact ⟨⟨_, hp⟩, hwrap, fun a p2 hr => by rw [hp] at hr; simp at hr⟩
        · by_cases hnull : (h.parseType p.consumeToken.consumeToken).1 = Ty.null
          · have hp := NumpyDialect.parseType_nested_fails h hk hl hq hnull
            exact ⟨⟨_, hp⟩, hwrap, fun a p2 hr => by rw [hp] at hr; simp at hr⟩
          · by_cases hg : (h.parseType p.consumeToken.consumeToken).2.getToken = Token.greater
            · have hp := NumpyDialect.parseType_nested h hk hl hq hnull hg
              rw [NdArrayType.get_some hnull] at hp
              refine ⟨⟨_, hp⟩, hwrap, fun a p2 hr => ?_⟩
              rw [hp] at hr
              simp only [Option.map_some', Option.some.injEq, Prod.mk.injEq] at hr
              refine ⟨(h.parseType p.consumeToken.consumeToken).1,
                (h.parseType p.consumeToken.consumeToken).2.context, hnull, Or.inr rfl, ?_⟩
              rw [NdArrayType.get_some hnull, ← hr.1, ← hr.2]
            · have hp := NumpyDialect.parseType_nested_no_greater h hk hl hq hnull hg
              exact ⟨⟨_, hp⟩, hwrap, fun a p2 hr => by rw [hp] at hr; simp at hr⟩
      · have hp := NumpyDialect.parseType_no_less h hk hl
        exact ⟨⟨_, hp⟩, hwrap, fun a p2 hr => by rw [hp] at hr; simp at hr⟩
    · have hp := NumpyDialect.parseType_other_keyword h hk ha hn
      exact ⟨⟨_, hp⟩, hwrap, fun a p2 hr => by rw [hp] at hr; simp at hr⟩
  · have hp := NumpyDialect.parseType_no_keyword h (fun k hk2 => hk ⟨k, hk2⟩)
    exact ⟨⟨_, hp⟩, hwrap, fun a p2 hr => by rw [hp] at hr; simp at hr⟩

theorem NumpyDialect.parseType_never_asserts_witness :
    (∃ r, NumpyDialect.parseType Host.basic
      (DialectAsmParser.create "ndarray<i32>" { ndArrayStorages := [] }) = some r) ∧
    (NumpyDialect.parseType Host.basic
      (DialectAsmParser.create "ndarray<i32>" { ndArrayStorages := [] })).map (·.1) =
        some (Ty.ndArray 0) :=
  ⟨(NumpyDialect.parseType_never_asserts Host.basic
      (DialectAsmParser.create "ndarray<i32>" { ndArrayStorages := [] })).1,
    by decide⟩

/-! ## Spellings of the unknown marker -/

theorem Lexer.dropWhile_of_question (cs : List Char)
    (hc : (Lexer.lexToken cs).1 = Token.question) :
    ∃ rest, cs.dropWhile Lexer.isWhitespace = '?' :: rest := by
  induction cs with
  | nil => simp [Lexer.lexToken] at hc
  | cons c cs ih =>
    by_cases hw : Lexer.isWhitespace c = true
    · rw [Lexer.lexToken, if_pos hw] at hc
      obtain ⟨rest, hr⟩ := ih hc
      exact ⟨rest, by rw [List.dropWhile_cons_of_pos hw, hr]⟩
    · rw [Lexer.lexToken, if_neg hw] at hc
      by_cases hq : c = '?'
      · exact ⟨cs, by rw [List.dropWhile_cons_of_neg hw, hq]⟩
      · exfalso
        revert hc
        simp only [hq, if_false]
        split_ifs
        · simp
        · simp
        · exact Lexer.classify_ne_question _
        · simp

theorem Host.withUnknown_rejectsQuestion : Host.withUnknown.RejectsQuestion := by
  intro p hp
  obtain ⟨rest, hr⟩ := Lexer.dropWhile_of_question p.input hp
  have hb := Host.basic_rejectsQuestion p hp
  have hpre : "!basicpy.UnknownType".data.isPrefixOf
      (p.input.dropWhile Lexer.isWhitespace) = false := by
    rw [hr]
    rfl
  simp only [Host.withUnknown, hpre]
  exact hb

theorem Host.withUnknown_spellsUnknown :
    Host.withUnknown.SpellsUnknown "!basicpy.UnknownType" := by
  intro p hin
  obtain ⟨input, offset, nameLoc, context, diagnostics⟩ := p
  simp only at hin
  subst hin
  exact ⟨rfl, rfl, List.prefix_refl _⟩

/-- C17: when the host's type parser accepts a spelling `u` of the unknown marker
type, `parseType` on `ndarray<u>` succeeds and returns the same instance as on
`ndarray<?>`; that instance has `hasKnownDtype()` false and is printed as
`ndarray<?>`, which is another text than `ndarray<u>`. -/
theorem NumpyDialect.parse_not_injective (h : Host) (hq : h.RejectsQuestion)
    (ctx : MLIRContext) (u : String) (hu : h.SpellsUnknown u) :
    ∃ a p1 p2,
      NumpyDialect.parseType h (DialectAsmParser.create "ndarray<?>" ctx) =
        some (Ty.ndArray a, p1) ∧
      NumpyDialect.parseType h (DialectAsmParser.create ("ndarray<" ++ u ++ ">") p1.context) =
        some (Ty.ndArray a, p2) ∧
      NdArrayType.hasKnownDtype p2.context a = false ∧
      NumpyDialect.printType h p2.context (Ty.ndArray a) = some "ndarray<?>" ∧
      "ndarray<?>" ≠ "ndarray<" ++ u ++ ">" := by
  have hp1 := NumpyDialect.parseType_text_question h ctx
  obtain ⟨_, _, hin, hctx⟩ := DialectAsmParser.create_ndarray u
    (StorageUniquer.get h.hash_combine ctx Ty.unknown).2
  obtain ⟨hu1, hu2, hu3⟩ := hu _ hin
  rw [hctx] at hu3
  have hp2 := NumpyDialect.parseType_text_nested h hq
    (StorageUniquer.get h.hash_combine ctx Ty.unknown).2 u (by rw [hu1]; decide) hu2
  rw [hu1, NdArrayType.get_some (by decide),
    StorageUniquer.get_again h.hash_combine ctx _ Ty.unknown hu3] at hp2
  have hentry := hu3.entry (StorageUniquer.get_spec h.hash_combine ctx Ty.unknown).1
  have hd := NdArrayType.getDtype_of_entry hentry
  refine ⟨_, _, _, hp1, hp2, ?_, ?_, ?_⟩
  · simp [NdArrayType.hasKnownDtype, hd]
  · simp [NumpyDialect.printType, hd]
  · intro heq
    have hdata := congrArg String.data heq
    simp only [String.data_append] at hdata
    have hq2 : u.data ++ ['>'] = ['?', '>'] := by
      have h8 : "ndarray<".data ++ (u.data ++ ['>']) = "ndarray<".data ++ ['?', '>'] := by
        rw [← List.append_assoc]
        exact hdata.symm
      exact List.append_cancel_left h8
    rw [hq2] at hin
    have htok : (DialectAsmParser.create ("ndarray<" ++ u ++ ">")
        (StorageUniquer.get h.hash_combine ctx Ty.unknown).2).consumeToken.consumeToken.getToken =
        Token.question := by
      rw [DialectAsmParser.getToken, hin]
      rfl
    have hnull := hq _ htok
    rw [hu1] at hnull
    cases hnull

theorem NumpyDialect.parse_not_injective_witness :
    (∃ a p1 p2,
      NumpyDialect.parseType Host.withUnknown
          (DialectAsmParser.create "ndarray<?>" { ndArrayStorages := [] }) =
        some (Ty.ndArray a, p1) ∧
      NumpyDialect.parseType Host.withUnknown
          (DialectAsmParser.create ("ndarray<" ++ "!basicpy.UnknownType" ++ ">") p1.context) =
        some (Ty.ndArray a, p2) ∧
      NdArrayType.hasKnownDtype p2.context a = false ∧
      NumpyDialect.printType Host.withUnknown p2.context (Ty.ndArray a) = some "ndarray<?>" ∧
      "ndarray<?>" ≠ "ndarray<" ++ "!basicpy.UnknownType" ++ ">") ∧
    (NumpyDialect.parseType Host.withUnknown
        (DialectAsmParser.create "ndarray<!basicpy.UnknownType>" { ndArrayStorages := [] })).map
        (fun r => (r.1, r.2.context)) =
      some (Ty.ndArray 0, { ndArrayStorages := [(1, { optionalDtype := Ty.unknown })] }) :=
  ⟨NumpyDialect.parse_not_injective Host.withUnknown Host.withUnknown_rejectsQuestion
      { ndArrayStorages := [] } "!basicpy.UnknownType" Host.withUnknown_spellsUnknown,
    by decide⟩

/-! ## What a successful parse consumes -/

theorem Lexer.takeWhile_stop (w r : List Char)
    (hw : ∀ x ∈ w, Lexer.isIdentCont x = true)
    (hr : ∀ c : Char, r.head? = some c → Lexer.isIdentCont c = false) :
    (w ++ r).takeWhile Lexer.isIdentCont = w ∧ (w ++ r).dropWhile Lexer.isIdentCont = r := by
  have h1 : r.takeWhile Lexer.isIdentCont = [] ∧ r.dropWhile Lexer.isIdentCont = r := by
    cases r with
    | nil => exact ⟨rfl, rfl⟩
    | cons c cs =>
      have hc := hr c rfl
      constructor
      · rw [List.takeWhile_cons_of_neg (by rw [hc]; decide)]
      · rw [List.dropWhile_cons_of_neg (by rw [hc]; decide)]
  rw [List.takeWhile_append_of_pos hw, List.dropWhile_append_of_pos hw, h1.1, h1.2]
  exact ⟨List.append_nil w, rfl⟩

theorem Lexer.lexToken_any_dtype (r : List Char)
    (hr : ∀ c : Char, r.head? = some c → Lexer.isIdentCont c = false) :
    Lexer.lexToken ("any_dtype".data ++ r) = (Token.bare_identifier "any_dtype", r) := by
  have hw : ∀ x ∈ "ny_dtype".data, Lexer.isIdentCont x = true := by decide
  obtain ⟨ht, hd⟩ := Lexer.takeWhile_stop "ny_dtype".data r hw hr
  have hlex : Lexer.lexToken ('a' :: ("ny_dtype".data ++ r)) =
      (Lexer.classify ('a' :: ("ny_dtype".data ++ r).takeWhile Lexer.isIdentCont),
        ("ny_dtype".data ++ r).dropWhile Lexer.isIdentCont) := rfl
  rw [ht, hd] at hlex
  exact hlex

/-- For every remainder, the nested host reads `!numpy.ndarray<?>` back as the
array type at address 0 and leaves the cursor in front of the remainder. -/
theorem Host.nested_parsesBackBefore_array (r : List Char) :
    (Host.nested 1).ParsesBackBefore
      { ndArrayStorages :=
          [(1, { optionalDtype := Ty.unknown }), (3, { optionalDtype := Ty.ndArray 0 })] }
      (Ty.ndArray 0) r := by
  intro p hctx hin
  have htext : (Host.nested 1).printType
      { ndArrayStorages :=
          [(1, { optionalDtype := Ty.unknown }), (3, { optionalDtype := Ty.ndArray 0 })] }
      (Ty.ndArray 0) = "!numpy.ndarray<?>" := by decide
  rw [htext] at hin
  obtain ⟨input, offset, nameLoc, context, diagnostics⟩ := p
  simp only at hctx hin
  subst hctx hin
  refine ⟨rfl, rfl, List.prefix_refl _, ?_⟩
  show MLIRContext.WellFormed Host.basic.hash_combine
    { ndArrayStorages :=
        [(1, { optionalDtype := Ty.unknown }), (3, { optionalDtype := Ty.ndArray 0 })] }
  decide

/-- C19: for every constructible type `t` and every remainder `r` that starts at
a token boundary, `parseType` started at the printed form of `t` followed by `r`
returns `t` and leaves the cursor at `r`. -/
theorem NumpyDialect.parseType_consumes_own_tokens (h : Host) (hq : h.RejectsQuestion)
    (ctx : MLIRContext) (hw : ctx.WellFormed h.hash_combine) (t : Ty) (r : List Char)
    (ht : NumpyDialect.ConstructibleBefore h ctx r t) :
    ∃ s, NumpyDialect.printType h ctx t = some s ∧
      ∀ p : DialectAsmParser, p.context = ctx → p.input = s.data ++ r →
        ∃ p2, NumpyDialect.parseType h p = some (t, p2) ∧ p2.input = r := by
  cases t with
  | null => exact absurd ht (by simp [NumpyDialect.ConstructibleBefore])
  | unknown => exact absurd ht (by simp [NumpyDialect.ConstructibleBefore])
  | other i => exact absurd ht (by simp [NumpyDialect.ConstructibleBefore])
  | anyDtype =>
    refine ⟨"any_dtype", rfl, ?_⟩
    intro p _ hin
    have hlex := Lexer.lexToken_any_dtype r ht
    have hk : p.getToken = Token.bare_identifier "any_dtype" := by
      rw [DialectAsmParser.getToken, hin, hlex]
    refine ⟨_, NumpyDialect.parseType_any_dtype h hk, ?_⟩
    rw [DialectAsmParser.consumeToken_input, hin, hlex]
  | ndArray a =>
    obtain ⟨ha, hd⟩ := ht
    by_cases hu : NdArrayType.getDtype ctx a = Ty.unknown
    · refine ⟨"ndarray<?>", by simp [NumpyDialect.printType, hu], ?_⟩
      intro p hctx hin
      have hin2 : p.input = "ndarray<".data ++ ('?' :: '>' :: r) := by
        rw [hin]
        rfl
      obtain ⟨hk, hl, h2, _⟩ := DialectAsmParser.tokens_ndarray hin2
      have hqt : p.consumeToken.consumeToken.getToken = Token.question := by
        rw [DialectAsmParser.getToken, h2, Lexer.lexToken_question]
      have h3 : p.consumeToken.consumeToken.consumeToken.input = '>' :: r := by
        rw [DialectAsmParser.consumeToken_input, h2, Lexer.lexToken_question]
      have hg : p.consumeToken.consumeToken.consumeToken.getToken = Token.greater := by
        rw [DialectAsmParser.getToken, h3, Lexer.lexToken_greater]
      have hp := NumpyDialect.parseType_question h hk hl hqt hg
      have hget := NdArrayType.get_getDtype hw ha
      rw [hu] at hget
      rw [hctx, hget] at hp
      refine ⟨_, hp, ?_⟩
      show p.consumeToken.consumeToken.consumeToken.consumeToken.input = r
      rw [DialectAsmParser.consumeToken_input, h3, Lexer.lexToken_greater]
    · have hpb : h.ParsesBackBefore ctx (NdArrayType.getDtype ctx a) r := by
        rcases hd with hd | hd
        · exact absurd hd hu
        · exact hd
      obtain ⟨e, he, hed⟩ := NdArrayType.entry_of_live ha
      have hnn : NdArrayType.getDtype ctx a ≠ Ty.null := by
        rw [← hed]
        exact (hw.1 e (List.getElem?_mem he)).2
      refine ⟨"ndarray<" ++ h.printType ctx (NdArrayType.getDtype ctx a) ++ ">",
        by simp [NumpyDialect.printType, hu], ?_⟩
      intro p hctx hin
      have hin2 : p.input = "ndarray<".data ++
          ((h.printType ctx (NdArrayType.getDtype ctx a)).data ++ '>' :: r) := by
        rw [hin]
        simp only [String.data_append, List.append_assoc]
        rfl
      obtain ⟨hk, hl, h2, hc2⟩ := DialectAsmParser.tokens_ndarray hin2
      obtain ⟨h1, h3, h4, h5⟩ := hpb _ (hc2.trans hctx) h2
      have hnq : p.consumeToken.consumeToken.getToken ≠ Token.question := by
        intro hq2
        have := hq _ hq2
        rw [h1] at this
        exact hnn this
      have hg : (h.parseType p.consumeToken.consumeToken).2.getToken = Token.greater := by
        rw [DialectAsmParser.getToken, h3, Lexer.lexToken_greater]
      have hp := NumpyDialect.parseType_nested h hk hl hnq (by rw [h1]; exact hnn) hg
      have he2 := h4.entry he
      have hlive : NdArrayType.LiveIn (h.parseType p.consumeToken.consumeToken).2.context a :=
        (List.getElem?_eq_some.1 he2).1
      have hget := NdArrayType.get_getDtype h5 hlive
      rw [NdArrayType.getDtype_of_entry he2, hed] at hget
      rw [h1, hget] at hp
      refine ⟨_, hp, ?_⟩
      show (h.parseType p.consumeToken.consumeToken).2.consumeToken.input = r
      rw [DialectAsmParser.consumeToken_input, h3, Lexer.lexToken_greater]

theorem NumpyDialect.parseType_consumes_own_tokens_witness :
    (∃ s, NumpyDialect.printType (Host.nested 1)
        { ndArrayStorages :=
            [(1, { optionalDtype := Ty.unknown }), (3, { optionalDtype := Ty.ndArray 0 })] }
        (Ty.ndArray 1) = some s ∧
      ∀ p : DialectAsmParser,
        p.context = { ndArrayStorages :=
            [(1, { optionalDtype := Ty.unknown }), (3, { optionalDtype := Ty.ndArray 0 })] } →
        p.input = s.data ++ [',', ' ', 'x'] →
        ∃ p2, NumpyDialect.parseType (Host.nested 1) p = some (Ty.ndArray 1, p2) ∧
          p2.input = [',', ' ', 'x']) ∧
    (NumpyDialect.parseType (Host.nested 1)
        (DialectAsmParser.create "ndarray<!numpy.ndarray<?>>, x"
          { ndArrayStorages :=
            [(1, { optionalDtype := Ty.unknown }), (3, { optionalDtype := Ty.ndArray 0 })] })).map
        (fun r => (r.1, r.2.input, r.2.offset)) =
      some (Ty.ndArray 1, [',', ' ', 'x'], 26) ∧
    (∃ s, NumpyDialect.printType Host.basic { ndArrayStorages := [] } Ty.anyDtype = some s ∧
      ∀ p : DialectAsmParser, p.context = { ndArrayStorages := [] } →
        p.input = s.data ++ ['>', 'x'] →
        ∃ p2, NumpyDialect.parseType Host.basic p = some (Ty.anyDtype, p2) ∧
          p2.input = ['>', 'x']) :=
  ⟨NumpyDialect.parseType_consumes_own_tokens (Host.nested 1) (Host.nested_rejectsQuestion 1)
      { ndArrayStorages :=
          [(1, { optionalDtype := Ty.unknown }), (3, { optionalDtype := Ty.ndArray 0 })] }
      (by decide) (Ty.ndArray 1) [',', ' ', 'x']
      ⟨by decide, Or.inr (Host.nested_parsesBackBefore_array _)⟩,
    by decide,
    NumpyDialect.parseType_consumes_own_tokens Host.basic Host.basic_rejectsQuestion
      { ndArrayStorages := [] } (by decide) Ty.anyDtype ['>', 'x']
      (by intro c hc; simp at hc; subst hc; decide)⟩

end Numpy
